import Mathlib

/-!
Verification development for the netparser CLI-capture processing pipeline.

The definitions below are a shallow embedding of the repository's Python
sources (`logic.py` for the NX-OS dialect, `logic_xe.py` for the IOS-XE
dialect, `logic-single.py` for the sequential NX-OS variant, `app.py` for
the session driver).  Tables parsed from device command output are lists
of typed rows; pandas lookups (`df.loc[df[col] == key, col2].values`)
become guarded `List.filter`/`List.map` chains; Python `dict` built from a
pandas index (`set_index(..).to_dict()`) becomes a left fold in which a
later binding for a key overwrites an earlier one; `None` becomes
`Option.none`; Python truthiness of strings and lists is made explicit.
-/

set_option maxRecDepth 10000

/-! ## Python string and value helpers -/

/-- Python substring test `needle in hay` on chars. -/
def hasSubChars (n : List Char) : List Char → Bool
  | [] => n.isEmpty
  | c :: rest => n.isPrefixOf (c :: rest) || hasSubChars n rest

/-- Python substring test `needle in hay` on strings. -/
def hasSub (needle hay : String) : Bool :=
  hasSubChars needle.data hay.data

/-- Python `str(x)` for an optional string: `str(None)` is the text `None`. -/
def pyStr : Option String → String
  | none => "None"
  | some s => s

/-- Python truthiness of an optional string: `None` and the empty string are falsy. -/
def pyTruthy : Option String → Bool
  | none => false
  | some s => s != ""

/-- Python truthiness of a plain string. -/
def pyTruthyStr (s : String) : Bool :=
  s != ""

/-- Python `sep.join(l)` (structural, so that concrete inputs evaluate). -/
def pyJoin (sep : String) : List String → String
  | [] => ""
  | x :: rest => rest.foldl (fun acc y => acc ++ sep ++ y) x

/-- Scanner for Python `s.split(sep)` with a non-empty separator:
left-to-right, non-overlapping; `acc` holds the current piece reversed;
fuel only bounds the recursion and never runs out when initialized above
the input length. -/
def pySplitGo : Nat → List Char → List Char → List Char → List (List Char)
  | 0, _, acc, cs => [acc.reverse ++ cs]
  | fuel + 1, sep, acc, cs =>
    match cs with
    | [] => [acc.reverse]
    | c :: rest =>
      if sep.isPrefixOf cs then
        acc.reverse :: pySplitGo fuel sep [] (cs.drop sep.length)
      else pySplitGo fuel sep (c :: acc) rest

/-- Python `s.split(sep)`. -/
def pySplitOn (s sep : String) : List String :=
  (pySplitGo (s.data.length + 1) sep.data [] s.data).map String.mk

/-- Scanner for Python `s.replace(old, new)`: every non-overlapping
occurrence, left to right. -/
def pyReplaceGo : Nat → List Char → List Char → List Char → List Char
  | 0, _, _, cs => cs
  | fuel + 1, old, new, cs =>
    match cs with
    | [] => []
    | c :: rest =>
      if old.isPrefixOf cs then new ++ pyReplaceGo fuel old new (cs.drop old.length)
      else c :: pyReplaceGo fuel old new rest

/-- Python `s.replace(old, new)`. -/
def pyReplace (s old new : String) : String :=
  String.mk (pyReplaceGo (s.data.length + 1) old.data new.data s.data)

/-- Python `s.strip()`: leading and trailing whitespace removed. -/
def pyStrip (s : String) : String :=
  String.mk (((s.data.dropWhile Char.isWhitespace).reverse.dropWhile
    Char.isWhitespace).reverse)

/-- A scalar-or-list field value, as produced by the grammar engine for
fields that may be repeated (`ALLOWED_VLANS`). -/
inductive StrOrList where
  | strv (s : String)
  | listv (l : List String)
deriving Repr, DecidableEq

/-- Python truthiness of a scalar-or-list value. -/
def slTruthy : StrOrList → Bool
  | .strv s => s != ""
  | .listv l => !l.isEmpty

/-- The string the source uses for a scalar-or-list value:
`v if isinstance(v, str) else ','.join(v)`. -/
def slJoin : StrOrList → String
  | .strv s => s
  | .listv l => pyJoin "," l

/-! ## Parsed-table row types (§3 ParsedTable) -/

/-- A `show mac address-table` row as `logic.py` consumes it (the NX-OS
code treats `PORTS` as a plain string throughout). -/
structure MacRow where
  PORTS : String
  MAC_ADDRESS : String
  VLAN_ID : String
deriving Repr, DecidableEq

/-- A `show mac address-table` row as `logic_xe.py` consumes it after the
`DESTINATION_ADDRESS`/`DESTINATION_PORT` rename; the IOS-XE code indexes
`PORTS` as a list (`port_list[0]`). -/
structure MacRowXE where
  PORTS : List String
  MAC_ADDRESS : String
  VLAN_ID : String
deriving Repr, DecidableEq

/-- A `show ip arp` row. -/
structure ArpRow where
  MAC_ADDRESS : String
  IP_ADDRESS : String
deriving Repr, DecidableEq

/-- A `show interface description` row. -/
structure DescRow where
  PORT : String
  DESCRIPTION : String
deriving Repr, DecidableEq

/-- A `show inventory` row, NX-OS schema (`NAME == 'Chassis'` lookup). -/
structure InvRow where
  NAME : String
  SN : String
deriving Repr, DecidableEq

/-- A `show inventory` row, IOS-XE schema (`PID` not-null lookup). -/
structure InvRowXE where
  PID : Option String
  SN : String
deriving Repr, DecidableEq

/-- A `show port-channel summary` row; `MEMBER_INTERFACE` is list-valued. -/
structure PoRow where
  BUNDLE_NAME : String
  MEMBER_INTERFACE : List String
deriving Repr, DecidableEq

/-- A `show interface status` row. -/
structure StatusRow where
  PORT : String
  TYPE : String
  VLAN_ID : String
deriving Repr, DecidableEq

/-- A `show cdp neighbors` row. -/
structure CdpRow where
  LOCAL_INTERFACE : String
  NEIGHBOR_NAME : String
  PLATFORM : String
  NEIGHBOR_INTERFACE : String
deriving Repr, DecidableEq

/-- A `show lldp neighbors` row. -/
structure LldpRow where
  LOCAL_INTERFACE : String
  NEIGHBOR_NAME : String
  NEIGHBOR_INTERFACE : String
deriving Repr, DecidableEq

/-- A `show interface trunk` row. -/
structure TrunkRow where
  PORT : String
  ALLOWED_VLANS : StrOrList
deriving Repr, DecidableEq

/-- The eight non-MAC tables of the NX-OS per-device pipeline
(`logic.py`, `process_single_hostname`). -/
structure TablesNX where
  inventory : List InvRow
  ip_arp : List ArpRow
  interface_description : List DescRow
  port_channel_summary : List PoRow
  interface_status : List StatusRow
  cdp_neighbors : List CdpRow
  lldp_neighbors : List LldpRow
  interface_trunk : List TrunkRow
deriving Repr

/-- The eight non-MAC tables of the IOS-XE per-device pipeline
(`logic_xe.py`, `process_single_hostname`). -/
structure TablesXE where
  inventory : List InvRowXE
  ip_arp : List ArpRow
  interface_description : List DescRow
  port_channel_summary : List PoRow
  interface_status : List StatusRow
  cdp_neighbors : List CdpRow
  lldp_neighbors : List LldpRow
  interface_trunk : List TrunkRow
deriving Repr

/-- One synthesized per-port row (§3 PortRecord); field names follow the
dict literal appended to `result` in the sources. -/
structure PortRecord where
  hostname : String
  serialNumber : Option String
  port : String
  memberPO : String
  tipeKabel : String
  sfp : Option String
  ipAddress : Option String
  macAddress : String
  vlan : String
  allowedVLAN : String
  trunkAccess : String
  description : Option String
  cdpNeighborHostname : Option String
  cdpNeighborPlatform : Option String
  cdpNeighborPort : Option String
  lldpNeighborHostname : Option String
  lldpNeighborPort : Option String
deriving Repr, DecidableEq

/-- A default record used with `Option.getD` / `List.getD`. -/
def emptyRecord : PortRecord :=
  { hostname := "", serialNumber := none, port := "", memberPO := "",
    tipeKabel := "", sfp := none, ipAddress := none, macAddress := "",
    vlan := "", allowedVLAN := "", trunkAccess := "", description := none,
    cdpNeighborHostname := none, cdpNeighborPlatform := none,
    cdpNeighborPort := none, lldpNeighborHostname := none,
    lldpNeighborPort := none }

/-! ## Port Record Builder (§4.4), NX-OS dialect — `logic.py` lines 112-188 -/

/-- Python `re.match(r'^Po', port)` / `port.startswith('Po')`: a prefix
test, implemented structurally on the character lists. -/
def pyStartsWith (s pre : String) : Bool :=
  pre.data.isPrefixOf s.data

/-- Cable-type derivation in the port-channel branch:
`"UTP" if "T" in str(sfp) else "Fiber" if sfp else "???"`. -/
def typeCablePo (sfp : Option String) : String :=
  if hasSub "T" (pyStr sfp) then "UTP"
  else if pyTruthy sfp then "Fiber" else "???"

/-- Cable-type derivation in the non-port-channel branch:
`"UTP" if "T" in str(sfp) else "Fiber" if sfp and "Vlan" not in port else "???"`. -/
def typeCableNonPo (sfp : Option String) (port : String) : String :=
  if hasSub "T" (pyStr sfp) then "UTP"
  else if pyTruthy sfp && !(hasSub "Vlan" port) then "Fiber" else "???"

/-- NX-OS member-interface resolution for a port-channel
(`logic.py` lines 134-136). -/
def memberPoNX (t : TablesNX) (port : String) : String :=
  let member_po_array :=
    if !t.port_channel_summary.isEmpty then
      (t.port_channel_summary.filter (fun r => r.BUNDLE_NAME == port)).map
        (fun r => r.MEMBER_INTERFACE)
    else []
  match member_po_array.head? with
  | some l => if l.isEmpty then "" else pyJoin ", " l
  | none => ""

/-- One step of the NX-OS port-channel CDP accumulation loop
(`logic.py` lines 157-163): per member interface, the first matching CDP
row updates the (hostname, platform, port) accumulator; a hostname or
platform is overwritten when the new value is not a substring of the
accumulated one, and the neighbor interface is appended, comma-separated,
without a distinctness check. -/
def cdpFoldStep (cdp_neighbors : List CdpRow) (acc : String × String × String)
    (intf : String) : String × String × String :=
  if intf == "" then acc
  else
    match (cdp_neighbors.filter (fun r => r.LOCAL_INTERFACE == intf)).head? with
    | none => acc
    | some r =>
      let h := if !(hasSub r.NEIGHBOR_NAME acc.1) then r.NEIGHBOR_NAME else acc.1
      let p := if !(hasSub r.PLATFORM acc.2.1) then r.PLATFORM else acc.2.1
      let pt := if acc.2.2 != "" then acc.2.2 ++ ", " ++ r.NEIGHBOR_INTERFACE
                else r.NEIGHBOR_INTERFACE
      (h, p, pt)

/-- NX-OS port-channel CDP resolution: fold the accumulation step over
`member_po.split(', ')` starting from empty-string sentinels. -/
def cdpPoResolve (cdp_neighbors : List CdpRow) (member_po : String) :
    String × String × String :=
  (pySplitOn member_po ", ").foldl (cdpFoldStep cdp_neighbors) ("", "", "")

/-- The members' first matching CDP rows, in member order: an empty member
name is skipped, as is a member with no matching CDP row (`logic.py`
lines 157-160). -/
def cdpMatchedRows (cdps : List CdpRow) (members : List String) : List CdpRow :=
  members.filterMap (fun intf =>
    if intf == "" then none
    else (cdps.filter (fun r => r.LOCAL_INTERFACE == intf)).head?)

/-- The hostname coordinate of the accumulation loop alone: each matched
row's neighbor hostname overwrites the accumulator when it is not a
substring of it (`logic.py` line 161). -/
def cdpHostFoldAcc (acc : String) : List CdpRow → String
  | [] => acc
  | r :: rest =>
    cdpHostFoldAcc (if !(hasSub r.NEIGHBOR_NAME acc) then r.NEIGHBOR_NAME else acc)
      rest

/-- The platform coordinate of the accumulation loop alone
(`logic.py` line 162). -/
def cdpPlatFoldAcc (acc : String) : List CdpRow → String
  | [] => acc
  | r :: rest =>
    cdpPlatFoldAcc (if !(hasSub r.PLATFORM acc) then r.PLATFORM else acc) rest

/-- The neighbor-interface coordinate of the accumulation loop alone:
each matched row's neighbor interface is appended, comma-separated, with
no distinctness check (`logic.py` line 163). -/
def cdpPortFoldAcc (acc : String) : List CdpRow → String
  | [] => acc
  | r :: rest =>
    cdpPortFoldAcc (if acc != "" then acc ++ ", " ++ r.NEIGHBOR_INTERFACE
      else r.NEIGHBOR_INTERFACE) rest

/-- One iteration of the NX-OS MAC-table loop (`logic.py` lines 112-188):
`none` when the row is excluded (`"vPC" in row['PORTS']`), otherwise the
emitted `PortRecord`. -/
def processRowNX (hostname : String) (t : TablesNX) (row : MacRow) :
    Option PortRecord :=
  if hasSub "vPC" row.PORTS then none
  else
    let port := row.PORTS
    let mac := row.MAC_ADDRESS
    let vlan := row.VLAN_ID
    let sn_array :=
      if !t.inventory.isEmpty then
        (t.inventory.filter (fun r => r.NAME == "Chassis")).map (fun r => r.SN)
      else []
    let sn := sn_array.head?
    let ip :=
      if t.ip_arp.isEmpty then none
      else ((t.ip_arp.filter (fun r => r.MAC_ADDRESS == mac)).map
        (fun r => r.IP_ADDRESS)).head?
    let desc_array :=
      if !t.interface_description.isEmpty then
        (t.interface_description.filter (fun r => r.PORT == port)).map
          (fun r => r.DESCRIPTION)
      else []
    let desc := desc_array.head?
    let mst :=
      if pyStartsWith port "Po" then
        let member_po := memberPoNX t port
        let sfp_array :=
          if !t.interface_status.isEmpty && member_po != "" then
            (t.interface_status.filter
              (fun r => r.PORT == (pySplitOn member_po ",").headD "")).map
              (fun r => r.TYPE)
          else []
        let sfp := sfp_array.head?
        (member_po, sfp, typeCablePo sfp)
      else
        let sfp_array :=
          if !t.interface_status.isEmpty then
            (t.interface_status.filter (fun r => r.PORT == port)).map
              (fun r => r.TYPE)
          else []
        let sfp := sfp_array.head?
        ("", sfp, typeCableNonPo sfp port)
    let member_po := mst.1
    let sfp := mst.2.1
    let type_cable := mst.2.2
    let trunk_access_array :=
      if !t.interface_status.isEmpty then
        (t.interface_status.filter (fun r => r.PORT == port)).map
          (fun r => r.VLAN_ID)
      else []
    let trunk_access0 := trunk_access_array.headD ""
    let trunk_access :=
      if trunk_access0.length != 0 && !(hasSub "trunk" trunk_access0)
          && !(hasSub "routed" trunk_access0) then "Access"
      else trunk_access0
    let cdp :=
      if t.cdp_neighbors.isEmpty then
        ((none : Option String), (none : Option String), (none : Option String))
      else if pyStartsWith port "Po" then
        let folded := cdpPoResolve t.cdp_neighbors member_po
        (some folded.1, some folded.2.1, some folded.2.2)
      else
        match (t.cdp_neighbors.filter (fun r => r.LOCAL_INTERFACE == port)).head? with
        | some r => (some r.NEIGHBOR_NAME, some r.PLATFORM, some r.NEIGHBOR_INTERFACE)
        | none => (none, none, none)
    let lldp :=
      if !t.lldp_neighbors.isEmpty && !(pyStartsWith port "Po") then
        match (t.lldp_neighbors.filter (fun r => r.LOCAL_INTERFACE == port)).head? with
        | some r => (some r.NEIGHBOR_NAME, some r.NEIGHBOR_INTERFACE)
        | none => ((none : Option String), (none : Option String))
      else (none, none)
    let allowed_vlan_trunk :=
      if !t.interface_trunk.isEmpty then
        match ((t.interface_trunk.filter (fun r => r.PORT == port)).map
            (fun r => r.ALLOWED_VLANS)).head? with
        | some v => if slTruthy v then slJoin v else ""
        | none => ""
      else ""
    some { hostname := hostname, serialNumber := sn, port := port,
           memberPO := member_po, tipeKabel := type_cable, sfp := sfp,
           ipAddress := ip, macAddress := mac, vlan := vlan,
           allowedVLAN := allowed_vlan_trunk, trunkAccess := trunk_access,
           description := desc, cdpNeighborHostname := cdp.1,
           cdpNeighborPlatform := cdp.2.1, cdpNeighborPort := cdp.2.2,
           lldpNeighborHostname := lldp.1, lldpNeighborPort := lldp.2 }

/-- `logic.py` `process_single_hostname`, abstracted over file I/O: the
returned value is the pair (value returned to the dispatcher, artifact
content written, if any).  On an empty MAC table the source returns the
would-be artifact filename while writing nothing; when every row is
excluded it returns `None`. -/
def processSingleHostnameNX (hostname : String) (mac_address : List MacRow)
    (t : TablesNX) : Option String × Option (List PortRecord) :=
  if mac_address.isEmpty then (some (hostname ++ ".xlsx"), none)
  else
    let result := mac_address.filterMap (processRowNX hostname t)
    if result.isEmpty then (none, none)
    else (some (hostname ++ ".xlsx"), some result)

/-! ## Port Record Builder (§4.4), IOS-XE dialect — `logic_xe.py` lines 108-178 -/

/-- Remove duplicates keeping the first occurrence, as
`pandas.Series.unique()` does, with an accumulator of values already seen. -/
def uniqAux (seen : List String) : List String → List String
  | [] => []
  | x :: xs => if seen.contains x then uniqAux seen xs else x :: uniqAux (x :: seen) xs

/-- Remove duplicates keeping the first occurrence. -/
def uniqFirst (l : List String) : List String :=
  uniqAux [] l

/-- The IOS-XE resolved port identifier: `port_list[0] if port_list else ''`. -/
def portOfListXE (ports : List String) : String :=
  match ports with
  | [] => ""
  | p :: _ => p

/-- IOS-XE member-interface resolution for a port-channel
(`logic_xe.py` lines 133-134): `', '.join(member_po_array[0]) if
len(member_po_array) > 0 else ""`. -/
def memberPoXE (t : TablesXE) (port : String) : String :=
  let member_po_array :=
    if !t.port_channel_summary.isEmpty then
      (t.port_channel_summary.filter (fun r => r.BUNDLE_NAME == port)).map
        (fun r => r.MEMBER_INTERFACE)
    else []
  match member_po_array.head? with
  | some l => pyJoin ", " l
  | none => ""

/-- The CDP rows whose local interface is one of the interfaces to check
(`logic_xe.py` line 151, `isin`). -/
def cdpDataXE (cdps : List CdpRow) (interfaces_to_check : List String) :
    List CdpRow :=
  cdps.filter (fun r => interfaces_to_check.contains r.LOCAL_INTERFACE)

/-- One iteration of the IOS-XE MAC-table loop (`logic_xe.py` lines
108-178): `none` when the row is skipped (`"CPU" in row['PORTS']`, a list
membership test, or an empty resolved port), otherwise the emitted
`PortRecord`.  The per-row `try`/`except` of the source catches faults the
typed embedding cannot produce. -/
def processRowXE (hostname : String) (t : TablesXE) (row : MacRowXE) :
    Option PortRecord :=
  if row.PORTS.contains "CPU" then none
  else
    let port := portOfListXE row.PORTS
    if port == "" then none
    else
      let mac := row.MAC_ADDRESS
      let vlan := row.VLAN_ID
      let sn_array :=
        if !t.inventory.isEmpty then
          (t.inventory.filter (fun r => r.PID.isSome)).map (fun r => r.SN)
        else []
      let sn := sn_array.head?
      let ip_array :=
        if !t.ip_arp.isEmpty then
          (t.ip_arp.filter (fun r => r.MAC_ADDRESS == mac)).map
            (fun r => r.IP_ADDRESS)
        else []
      let ip := ip_array.head?
      let desc_array :=
        if !t.interface_description.isEmpty then
          (t.interface_description.filter (fun r => r.PORT == port)).map
            (fun r => r.DESCRIPTION)
        else []
      let desc := desc_array.head?
      let mst :=
        if pyStartsWith port "Po" then
          let member_po := memberPoXE t port
          let sfp_array :=
            if !t.interface_status.isEmpty && member_po != "" then
              (t.interface_status.filter
                (fun r => r.PORT == (pySplitOn member_po ",").headD "")).map
                (fun r => r.TYPE)
            else []
          let sfp := sfp_array.head?
          (member_po, sfp, typeCablePo sfp)
        else
          let sfp_array :=
            if !t.interface_status.isEmpty then
              (t.interface_status.filter (fun r => r.PORT == port)).map
                (fun r => r.TYPE)
            else []
          let sfp := sfp_array.head?
          ("", sfp, typeCableNonPo sfp port)
      let member_po := mst.1
      let sfp := mst.2.1
      let type_cable := mst.2.2
      let trunk_access_array :=
        if !t.interface_status.isEmpty then
          (t.interface_status.filter (fun r => r.PORT == port)).map
            (fun r => r.VLAN_ID)
        else []
      let trunk_access0 := trunk_access_array.headD ""
      let trunk_access :=
        if trunk_access0.length > 0 && !(hasSub "trunk" trunk_access0)
            && !(hasSub "routed" trunk_access0) then "Access"
        else trunk_access0
      let cdp :=
        if !t.cdp_neighbors.isEmpty then
          let interfaces_to_check :=
            if pyStartsWith port "Po" && member_po != "" then pySplitOn member_po ", "
            else [port]
          let cdp_data := cdpDataXE t.cdp_neighbors interfaces_to_check
          match cdp_data.head? with
          | some r =>
            (some r.NEIGHBOR_NAME, some r.PLATFORM,
              some (pyJoin ", "
                (uniqFirst (cdp_data.map (fun x => x.NEIGHBOR_INTERFACE)))))
          | none =>
            ((none : Option String), (none : Option String), (none : Option String))
        else (none, none, none)
      let lldp :=
        if !t.lldp_neighbors.isEmpty && !(pyStartsWith port "Po") then
          match (t.lldp_neighbors.filter (fun r => r.LOCAL_INTERFACE == port)).head? with
          | some r => (some r.NEIGHBOR_NAME, some r.NEIGHBOR_INTERFACE)
          | none => ((none : Option String), (none : Option String))
        else (none, none)
      let allowed_vlan_trunk :=
        if !t.interface_trunk.isEmpty then
          match ((t.interface_trunk.filter (fun r => r.PORT == port)).map
              (fun r => r.ALLOWED_VLANS)).head? with
          | some v => if slTruthy v then slJoin v else ""
          | none => ""
        else ""
      some { hostname := hostname, serialNumber := sn, port := port,
             memberPO := member_po, tipeKabel := type_cable, sfp := sfp,
             ipAddress := ip, macAddress := mac, vlan := vlan,
             allowedVLAN := allowed_vlan_trunk, trunkAccess := trunk_access,
             description := desc, cdpNeighborHostname := cdp.1,
             cdpNeighborPlatform := cdp.2.1, cdpNeighborPort := cdp.2.2,
             lldpNeighborHostname := lldp.1, lldpNeighborPort := lldp.2 }

/-- `logic_xe.py` `process_single_hostname`, abstracted over file I/O:
(value returned to the dispatcher, artifact content written, if any).
Both the empty-MAC-table case and the all-rows-skipped case return `None`
and write nothing. -/
def processSingleHostnameXE (hostname : String) (mac_address : List MacRowXE)
    (t : TablesXE) : Option String × Option (List PortRecord) :=
  if mac_address.isEmpty then (none, none)
  else
    let result := mac_address.filterMap (processRowXE hostname t)
    if result.isEmpty then (none, none)
    else (some (hostname ++ ".xlsx"), some result)

/-! ## The sequential NX-OS variant — `logic-single.py` -/

/-- The row filter of `logic-single.py` line 122, kept with Python's
evaluation order: `if "sup" or "vPC" not in row['PORTS']` evaluates the
truthiness of the literal string `"sup"` first, so the disjunction
short-circuits to true for every row. -/
def includeRowSingle (row : MacRow) : Bool :=
  pyTruthyStr "sup" || !(hasSub "vPC" row.PORTS)

/-- Cable-type derivation of `logic-single.py` lines 147-161 in the
non-port-channel branch: the `"Vlan" in port` test is applied first and
forces the unknown sentinel regardless of the resolved SFP type. -/
def typeCableSingleNonPo (sfp : Option String) (port : String) : String :=
  if hasSub "Vlan" port then "???"
  else
    match sfp with
    | some s => if hasSub "T" s then "UTP" else "Fiber"
    | none => "???"

/-! ## Aggregator (§4.7) — `logic.py` lines 234-263, `logic_xe.py` lines 208-226 -/

/-- The MAC-to-IP pairs the aggregator indexes, in row order:
`final_df.dropna(subset=['IP Address']).set_index('Mac Address')['IP Address']`. -/
def macToIpPairs (rows : List PortRecord) : List (String × String) :=
  rows.filterMap (fun r =>
    match r.ipAddress with
    | some ip => some (r.macAddress, ip)
    | none => none)

/-- Lookup in the Python `dict` built from those pairs by `.to_dict()`:
construction iterates the pairs in order and a later binding for a key
overwrites an earlier one. -/
def dictLookup (d : List (String × String)) (k : String) : Option String :=
  d.foldl (fun acc p => if p.1 == k then some p.2 else acc) none

/-- The aggregator's IP backfill pass:
`final_df['IP Address'].fillna(final_df['Mac Address'].map(mac_to_ip))`. -/
def backfill (rows : List PortRecord) : List PortRecord :=
  let mac_to_ip := macToIpPairs rows
  rows.map (fun r =>
    match r.ipAddress with
    | some _ => r
    | none => { r with ipAddress := dictLookup mac_to_ip r.macAddress })

/-- Reading one artifact's Final-Data sheet back from the output
directory, modelled as an association list from filename to sheet rows;
`none` is a missing or unreadable artifact (the `except` branch of the
aggregation loop). -/
def readFinalData (store : List (String × List PortRecord)) (filename : String) :
    Option (List PortRecord) :=
  ((store.filter (fun p => p.1 == filename)).head?).map (fun p => p.2)

/-- One iteration of the aggregation read-back loop (`for filename in
results: if filename: try ... except ... continue`): a worker result that
is `None` or the empty string is skipped, an unreadable artifact is
skipped, a readable one contributes its sheet. -/
def collectStep (store : List (String × List PortRecord)) :
    Option String → Option (List PortRecord)
  | none => none
  | some filename => if filename != "" then readFinalData store filename else none

/-- The aggregation read-back loop: the readable sheets, in result order. -/
def collectDeviceData (results : List (Option String))
    (store : List (String × List PortRecord)) : List (List PortRecord) :=
  results.filterMap (collectStep store)

/-- `execute_main`'s aggregation stage: `none` when no artifact could be
read (the session ends without a FinalReport), otherwise the backfilled
concatenation of every readable artifact's rows. -/
def aggregateModel (results : List (Option String))
    (store : List (String × List PortRecord)) : Option (List PortRecord) :=
  let all_device_data := collectDeviceData results store
  if all_device_data.isEmpty then none
  else some (backfill all_device_data.flatten)

/-- Whether one worker result contributes rows to the aggregation. -/
def readableResult (store : List (String × List PortRecord)) :
    Option String → Bool
  | none => false
  | some filename => filename != "" && (readFinalData store filename).isSome

/-! ## Segment Splitter (§4.1), NX-OS dialect — `logic.py` `execute_split` -/

/-- The nine required NX-OS command markers (`logic.py` lines 21-25). -/
def requiredCommands : List String :=
  ["show interface description", "show interface status", "show interface trunk",
   "show port-channel summary", "show ip arp", "show mac address-table",
   "show inventory", "show cdp neighbors", "show lldp neighbors"]

/-- The per-file validation pass: every required command absent from the
raw text, quoted, in `required_commands` order. -/
def missingCommands (data : String) : List String :=
  (requiredCommands.filter (fun c => !(hasSub c data))).map
    (fun c => "\x27" ++ c ++ "\x27")

/-- The validation error message recorded for one file. -/
def missingErrorMessage (name_file : String) (missing : List String) : String :=
  "File \x27" ++ name_file ++ ".txt\x27 is missing command(s): "
    ++ pyJoin ", " missing ++ "."

/-- Drop characters up to and including the first newline. -/
def dropThroughNewline : List Char → List Char
  | [] => []
  | c :: rest => if c == '\n' then rest else dropThroughNewline rest

/-- The boilerplate-stripping pass
`re.sub(r"^show.*\n|^!$\n|terminal no length", "", data, flags=re.MULTILINE)`
as a left-to-right scan over the raw characters.  `at_line_start` is true at
position 0 and right after a newline of the original text; a matched
alternative consumes its span and scanning resumes after it.  The fuel
argument only bounds the recursion; every step consumes at least one
character, so fuel equal to the input length never runs out. -/
def stripGo : Nat → Bool → List Char → List Char
  | 0, _, cs => cs
  | fuel + 1, at_line_start, cs =>
    match cs with
    | [] => []
    | c :: rest =>
      if at_line_start && ("show".data.isPrefixOf cs) && cs.any (fun x => x == '\n') then
        stripGo fuel true (dropThroughNewline cs)
      else if at_line_start && (['!', '\n'].isPrefixOf cs) then
        stripGo fuel true (cs.drop 2)
      else if "terminal no length".data.isPrefixOf cs then
        stripGo fuel false (cs.drop "terminal no length".data.length)
      else
        c :: stripGo fuel (c == '\n') rest

/-- Boilerplate stripping on strings (`logic.py` line 52). -/
def stripBoilerplate (s : String) : String :=
  String.mk (stripGo s.data.length true s.data)

/-- Consume characters up to and including the first newline, or fail when
no newline follows. -/
def uptoNewline : List Char → Option (List Char × List Char)
  | [] => none
  | c :: rest =>
    if c == '\n' then some ([c], rest)
    else
      match uptoNewline rest with
      | some (a, b) => some (c :: a, b)
      | none => none

/-- Try to match the separator pattern `{name_file}# show .+?\n` at the
head of `s`: the literal `pfx` followed by at least one non-newline
character and everything up to and including the first newline.  Returns
the consumed separator and the remainder. -/
def matchHeader (pfx : List Char) (s : List Char) : Option (List Char × List Char) :=
  if pfx.isPrefixOf s then
    let after := s.drop pfx.length
    match after with
    | [] => none
    | c :: _ =>
      if c == '\n' then none
      else
        match uptoNewline after with
        | some (body, rest) => some (pfx ++ body, rest)
        | none => none
  else none

/-- `re.split` with a capturing separator group, scanning left to right:
the result alternates non-separator pieces with the captured separators,
starting and ending with a (possibly empty) piece.  `acc` holds the
current piece reversed; fuel only bounds the recursion and never runs out
when initialized above the input length. -/
def splitGo : Nat → List Char → List Char → List Char → List (List Char)
  | 0, _, acc, cs => [acc.reverse ++ cs]
  | fuel + 1, pfx, acc, cs =>
    match cs with
    | [] => [acc.reverse]
    | c :: rest =>
      match matchHeader pfx cs with
      | some (hdr, rest2) => acc.reverse :: hdr :: splitGo fuel pfx [] rest2
      | none => splitGo fuel pfx (c :: acc) rest

/-- `re.split(rf"({name_file}# show .+?\n)", data)` (`logic.py` line 53). -/
def reSplitHeader (name_file : String) (data : String) : List String :=
  (splitGo (data.data.length + 1) (name_file ++ "# show ").data [] data.data).map
    String.mk

/-- Pair each captured separator with the piece that follows it, as the
loop `for i in range(1, len(blocks), 2)` does after dropping the leading
piece. -/
def chunkPairs : List String → List (String × String)
  | h :: b :: rest => (h, b) :: chunkPairs rest
  | _ => []

/-- Derive the normalized command name from a stripped header
(`logic.py` lines 61-63): last piece of a split on `#show `, spaces to
underscores, then the `{name_file}#_` residue removed. -/
def commandOfHeader (name_file header : String) : String :=
  let command := pyReplace ((pySplitOn header "#show ").getLastD header) " " "_"
  pyReplace command (name_file ++ "#_") ""

/-- The segment files `execute_split` writes for one validated device:
filename paired with content, in block order (`logic.py` lines 52-66). -/
def deviceSegments (name_file data : String) : List (String × String) :=
  let stripped := stripBoilerplate data
  let blocks := reSplitHeader name_file stripped
  (chunkPairs (blocks.drop 1)).map (fun hb =>
    let header := pyStrip hb.1
    let command := commandOfHeader name_file header
    (command ++ ".txt", header ++ "\n" ++ hb.2))

/-- One iteration of the splitting loop: a file failing validation is
recorded and skipped; a file passing validation has its segments written
even when another file failed (`logic.py` lines 30-69). -/
def executeSplitStep (acc : List String × List (String × String × String))
    (file : String × String) :
    List String × List (String × String × String) :=
  let missing := missingCommands file.2
  if !missing.isEmpty then
    (acc.1 ++ [missingErrorMessage file.1 missing], acc.2)
  else
    (acc.1, acc.2 ++ (deviceSegments file.1 file.2).map
      (fun seg => (file.1, seg.1, seg.2)))

/-- The whole splitting stage over a session's input files, given as
(filename stem, raw text) pairs: the accumulated error-message list and
the segment files written, each tagged with its device
(`logic.py` lines 30-69). -/
def executeSplitModel (files : List (String × String)) :
    List String × List (String × String × String) :=
  files.foldl executeSplitStep ([], [])

/-- The error list and segment files one input file contributes. -/
def fileOutcome (file : String × String) :
    List String × List (String × String × String) :=
  let missing := missingCommands file.2
  if !missing.isEmpty then ([missingErrorMessage file.1 missing], [])
  else ([], (deviceSegments file.1 file.2).map (fun seg => (file.1, seg.1, seg.2)))

/-- Overwrite one file in a directory state (filename to content). -/
def fsWrite (fs : String → Option String) (k v : String) : String → Option String :=
  fun x => if x == k then some v else fs x

/-- Write a list of segment files into a directory state, in order; a
later write to the same name overwrites an earlier one, exactly as
`open(filename, "w")` does. -/
def writeSegments (segs : List (String × String)) (fs : String → Option String) :
    String → Option String :=
  segs.foldl (fun acc seg => fsWrite acc seg.1 seg.2) fs

/-- Running the splitter for one validated device against a directory
state: every produced segment file is (over)written. -/
def runSplitDevice (name_file data : String) (fs : String → Option String) :
    String → Option String :=
  writeSegments (deviceSegments name_file data) fs

/-! ## Segment Splitter, IOS-XE dialect — `logic_xe.py` `execute_split` -/

/-- The IOS-XE per-segment content stripping
`re.sub(r"^!$\n|^terminal no length\n|^Stop recording.*\n?", "", content,
flags=re.MULTILINE)` as a left-to-right scan; all three alternatives are
anchored at a line start, and `Stop recording` consumes to the end of its
line with the trailing newline optional.  Fuel only bounds the recursion
and never runs out when initialized at the input length. -/
def stripContentGoXE : Nat → Bool → List Char → List Char
  | 0, _, cs => cs
  | fuel + 1, at_line_start, cs =>
    match cs with
    | [] => []
    | c :: rest =>
      if at_line_start && (['!', '\n'].isPrefixOf cs) then
        stripContentGoXE fuel true (cs.drop 2)
      else if at_line_start && ("terminal no length\n".data.isPrefixOf cs) then
        stripContentGoXE fuel true (cs.drop "terminal no length\n".data.length)
      else if at_line_start && ("Stop recording".data.isPrefixOf cs) then
        stripContentGoXE fuel true (dropThroughNewline cs)
      else
        c :: stripContentGoXE fuel (c == '\n') rest

/-- IOS-XE per-segment content stripping on strings (`logic_xe.py` line 40). -/
def stripContentXE (s : String) : String :=
  String.mk (stripContentGoXE s.data.length true s.data)

/-- The IOS-XE command-name alias table (`logic_xe.py` lines 34-37). -/
def aliasXE (command : String) : String :=
  if command == "etherchannel_summary" then "port-channel_summary"
  else if command == "interfaces_description" then "interface_description"
  else if command == "interfaces_status" then "interface_status"
  else if command == "interfaces_trunk" then "interface_trunk"
  else command

/-- The segment files `logic_xe.py`'s `execute_split` writes for one
device: the separator pattern is `{name_file}#show .+?\n` (no space
before `show`), the content is the body alone (the header is not echoed)
with the IOS-XE boilerplate stripped per segment, and the filename is
`show_{command}.txt` with the alias table applied (lines 26-43). -/
def deviceSegmentsXE (name_file data : String) : List (String × String) :=
  let blocks :=
    (splitGo (data.data.length + 1) (name_file ++ "#show ").data [] data.data).map
      String.mk
  (chunkPairs (blocks.drop 1)).map (fun hb =>
    let header := pyStrip hb.1
    let command0 := pyReplace ((pySplitOn header "#show ").getLastD header) " " "_"
    let command1 := aliasXE command0
    let content := stripContentXE hb.2
    let command := pyReplace command1 (name_file ++ "#_") ""
    ("show_" ++ command ++ ".txt", content))

/-- Running the IOS-XE splitter for one device against a directory state:
every produced segment file is (over)written. -/
def runSplitDeviceXE (name_file data : String) (fs : String → Option String) :
    String → Option String :=
  writeSegments (deviceSegmentsXE name_file data) fs

/-- The content the last write to filename `x` leaves behind, if any. -/
def lastWrite : List (String × String) → String → Option String
  | [], _ => none
  | s :: rest, x =>
    match lastWrite rest x with
    | some v => some v
    | none => if s.1 == x then some s.2 else none

/-- The IP of the last row carrying MAC `m` whose IP is present — the
value the aggregator's dict lookup must produce. -/
def lastPresentIp : List PortRecord → String → Option String
  | [], _ => none
  | r :: rest, m =>
    match lastPresentIp rest m with
    | some v => some v
    | none => if r.macAddress == m then r.ipAddress else none

/-- Modelled from the spec: the first-writer-wins MAC-to-IP mapping that
§4.7 describes ("first-writer-wins on duplicate MAC") — the IP of the
first pair carrying the key. -/
def firstWriterLookup (d : List (String × String)) (k : String) : Option String :=
  ((d.filter (fun p => p.1 == k)).head?).map (fun p => p.2)



/-! ## Concrete instances used by counterexamples and witnesses -/

/-- All eight NX-OS tables empty. -/
def emptyTablesNX : TablesNX :=
  ⟨[], [], [], [], [], [], [], []⟩

/-- All eight IOS-XE tables empty. -/
def emptyTablesXE : TablesXE :=
  ⟨[], [], [], [], [], [], [], []⟩

/-- An aggregation row carrying just a MAC and an optional IP. -/
def aggRow (m : String) (ip : Option String) : PortRecord :=
  { emptyRecord with
    hostname := "d1", port := "Eth1/1", macAddress := m,
    ipAddress := ip, vlan := "1" }

/-- Three aggregation rows sharing one MAC: two with distinct present IPs
and one with a missing IP. -/
def c1Rows : List PortRecord :=
  [aggRow "aa" (some "10.0.0.1"), aggRow "aa" (some "10.0.0.2"), aggRow "aa" none]

/-- Rows in which the pair (row 0, row 1) shares MAC `bb` with exactly one
present IP between the two, and a third row carries the same MAC with a
different present IP. -/
def c8Rows : List PortRecord :=
  [aggRow "bb" (some "10.1.1.1"), aggRow "bb" none, aggRow "bb" (some "10.2.2.2")]

/-- A port-channel `Po1` with two members, each member with its own CDP
neighbor; the two neighbor interfaces carry the same value. -/
def c5Tables : TablesNX :=
  { emptyTablesNX with
    port_channel_summary := [⟨"Po1", ["Eth1/1", "Eth1/2"]⟩],
    cdp_neighbors := [⟨"Eth1/1", "A", "P1", "Gi0/1"⟩, ⟨"Eth1/2", "B", "P2", "Gi0/1"⟩] }

/-- A MAC-table row on the port-channel `Po1`. -/
def c5Row : MacRow :=
  ⟨"Po1", "aabb.ccdd.eeff", "10"⟩

/-- A port-channel `Po1` with members `Eth1/1` and `Eth1/2` whose CDP
neighbors carry arbitrary hostnames, platforms and interfaces. -/
def twoMemberPoTables (h1 pl1 p1 h2 pl2 p2 : String) : TablesNX :=
  { emptyTablesNX with
    port_channel_summary := [⟨"Po1", ["Eth1/1", "Eth1/2"]⟩],
    cdp_neighbors := [⟨"Eth1/1", h1, pl1, p1⟩, ⟨"Eth1/2", h2, pl2, p2⟩] }

/-- An IOS-XE table set with port-channel `Po1` (members `Gi1/0/1` and
`Gi1/0/2`) and one CDP row per member. -/
def c5TablesXE : TablesXE :=
  { emptyTablesXE with
    port_channel_summary := [⟨"Po1", ["Gi1/0/1", "Gi1/0/2"]⟩],
    cdp_neighbors := [⟨"Gi1/0/1", "A", "P1", "Gi0/1"⟩,
                      ⟨"Gi1/0/2", "B", "P2", "Gi0/1"⟩] }

/-- An IOS-XE MAC-table row on the port-channel `Po1`. -/
def c5RowXE : MacRowXE :=
  ⟨["Po1"], "aabb.ccdd.eeff", "10"⟩

/-- An interface-status table resolving the SVI port `Vlan10` to a
transceiver type containing `T`. -/
def c6Tables : TablesNX :=
  { emptyTablesNX with interface_status := [⟨"Vlan10", "10GBaseT", "routed"⟩] }

/-- A MAC-table row on the SVI port `Vlan10`. -/
def c6Row : MacRow :=
  ⟨"Vlan10", "aabb.ccdd.eeff", "10"⟩

/-- An IOS-XE MAC-table row whose port list holds the single element
`CPU0`: its first element contains `CPU` as a substring, but no element
equals `CPU`. -/
def c3RowXE : MacRowXE :=
  ⟨["CPU0"], "aabb.ccdd.eeff", "10"⟩

/-- A raw NX-OS capture containing all nine required command markers. -/
def goodCapture : String :=
  "sw1# show interface description\nD\nsw1# show interface status\nS\nsw1# show interface trunk\nT\nsw1# show port-channel summary\nP\nsw1# show ip arp\nA\nsw1# show mac address-table\nM\nsw1# show inventory\nI\nsw1# show cdp neighbors\nC\nsw1# show lldp neighbors\nL\n"

/-- A session with one invalid capture (empty, so all nine markers are
missing) and one valid capture. -/
def c2Files : List (String × String) :=
  [("bad", ""), ("sw1", goodCapture)]

/-! ## General lemmas -/

/-- A nonempty string has a nonempty character list. -/
theorem data_isEmpty_eq_false {s : String} (h : s ≠ "") : s.data.isEmpty = false := by
  cases s with
  | mk l =>
    cases l with
    | nil => exact absurd rfl h
    | cons c cs => rfl

/-- The empty needle is a substring of everything; a nonempty needle is
not a substring of the empty string. -/
theorem hasSub_empty_hay {n : String} (h : n ≠ "") : hasSub n "" = false := by
  simp [hasSub, hasSubChars, data_isEmpty_eq_false h]

/-- `List.getD` of a map, inside the range. -/
theorem getD_map_lt {α β : Type} (f : α → β) :
    ∀ (l : List α) (i : Nat), i < l.length →
      ∀ (d : α) (d2 : β), (l.map f).getD i d2 = f (l.getD i d)
  | [], i, h => by cases h
  | a :: l, 0, _ => by intro d d2; rfl
  | a :: l, i + 1, h => by
    intro d d2
    exact getD_map_lt f l i (Nat.lt_of_succ_lt_succ h) d d2

/-- An in-range `List.getD` is a member. -/
theorem getD_mem_of_lt {α : Type} :
    ∀ (l : List α) (i : Nat), i < l.length → ∀ (d : α), l.getD i d ∈ l
  | [], i, h => by cases h
  | a :: l, 0, _ => by intro d; exact List.mem_cons_self a l
  | a :: l, i + 1, h => by
    intro d
    exact List.mem_cons_of_mem a (getD_mem_of_lt l i (Nat.lt_of_succ_lt_succ h) d)

/-! ## Splitter idempotence -/

/-- What a sequence of writes leaves at one filename: the last write to
that name, else whatever was there before. -/
theorem writeSegments_eq (segs : List (String × String)) :
    ∀ (fs : String → Option String) (x : String),
      writeSegments segs fs x =
        match lastWrite segs x with
        | some v => some v
        | none => fs x := by
  induction segs with
  | nil => intro fs x; rfl
  | cons s rest ih =>
    intro fs x
    show writeSegments rest (fsWrite fs s.1 s.2) x = _
    rw [ih]
    cases h : lastWrite rest x with
    | some v => simp [lastWrite, h]
    | none =>
      simp only [lastWrite, h, fsWrite]
      by_cases hx : x = s.1
      · simp [hx]
      · simp [if_neg hx, if_neg (Ne.symm hx)]

/-- Writing the same list of segment files twice leaves the same
directory state as writing it once. -/
theorem writeSegments_idempotent (segs : List (String × String))
    (fs : String → Option String) :
    writeSegments segs (writeSegments segs fs) = writeSegments segs fs := by
  funext x
  rw [writeSegments_eq]
  cases h : lastWrite segs x with
  | some v =>
    have hr : writeSegments segs fs x =
        match lastWrite segs x with
        | some v => some v
        | none => fs x := writeSegments_eq _ _ _
    rw [hr, h]
  | none => rfl

/-- C9: re-running `split` on the same input and the same output directory
produces segment files byte-identical to those of the first run, in both
dialects: for every raw capture, device name and starting directory state,
applying the NX-OS splitter's write pass (`logic.py`) or the IOS-XE
splitter's write pass (`logic_xe.py`) twice yields the same directory
state as applying it once — each splitter's segment set is a pure function
of the capture text and device name, and the second run overwrites every
segment file with identical bytes. -/
theorem split_rerun_idempotent_dialects :
    (∀ (name_file data : String) (fs : String → Option String),
      runSplitDevice name_file data (runSplitDevice name_file data fs) =
        runSplitDevice name_file data fs) ∧
    (∀ (name_file data : String) (fs : String → Option String),
      runSplitDeviceXE name_file data (runSplitDeviceXE name_file data fs) =
        runSplitDeviceXE name_file data fs) :=
  ⟨fun name_file data fs =>
      writeSegments_idempotent (deviceSegments name_file data) fs,
   fun name_file data fs =>
      writeSegments_idempotent (deviceSegmentsXE name_file data) fs⟩

/-! ## Aggregator backfill lemmas -/

/-- The aggregator's dict lookup, as a fold, returns the last binding. -/
theorem dictLookup_foldl (d : List (String × String)) (k : String) :
    ∀ acc : Option String,
      d.foldl (fun acc p => if p.1 == k then some p.2 else acc) acc =
        match lastWrite d k with
        | some v => some v
        | none => acc := by
  induction d with
  | nil => intro acc; rfl
  | cons p rest ih =>
    intro acc
    show rest.foldl _ (if p.1 == k then some p.2 else acc) = _
    rw [ih]
    cases h : lastWrite rest k with
    | some v => simp [lastWrite, h]
    | none =>
      simp only [lastWrite, h]
      by_cases hp : p.1 = k <;> simp [hp]

/-- The aggregator's dict lookup equals the last binding for the key. -/
theorem dictLookup_eq_lastWrite (d : List (String × String)) (k : String) :
    dictLookup d k = lastWrite d k := by
  show d.foldl _ none = _
  rw [dictLookup_foldl]
  cases h : lastWrite d k <;> rfl

/-- The MAC-to-IP mapping the aggregator builds binds a MAC to the IP of
the last row carrying that MAC with a present IP. -/
theorem lastWrite_macToIpPairs (rows : List PortRecord) (m : String) :
    lastWrite (macToIpPairs rows) m = lastPresentIp rows m := by
  induction rows with
  | nil => rfl
  | cons r rest ih =>
    show lastWrite (macToIpPairs (r :: rest)) m = _
    cases hip : r.ipAddress with
    | some ip =>
      have : macToIpPairs (r :: rest) = (r.macAddress, ip) :: macToIpPairs rest := by
        simp [macToIpPairs, hip]
      rw [this]
      show (match lastWrite (macToIpPairs rest) m with
            | some v => some v
            | none => if r.macAddress == m then some ip else none) = _
      rw [ih]
      cases h : lastPresentIp rest m with
      | some v => simp [lastPresentIp, h]
      | none => simp [lastPresentIp, h, hip]
    | none =>
      have : macToIpPairs (r :: rest) = macToIpPairs rest := by
        simp [macToIpPairs, hip]
      rw [this, ih]
      cases h : lastPresentIp rest m with
      | some v => simp [lastPresentIp, h]
      | none =>
        simp only [lastPresentIp, h, hip]
        by_cases hm : r.macAddress == m <;> simp [hm]

/-- There is no last present IP exactly when no row with the MAC has one. -/
theorem lastPresentIp_eq_none_iff (m : String) :
    ∀ rows : List PortRecord,
      lastPresentIp rows m = none ↔
        ∀ r ∈ rows, r.macAddress = m → r.ipAddress = none := by
  intro rows
  induction rows with
  | nil => simp [lastPresentIp]
  | cons r rest ih =>
    constructor
    · intro h x hx hmx
      simp only [lastPresentIp] at h
      cases hrest : lastPresentIp rest m with
      | some v => rw [hrest] at h; exact absurd h (by simp)
      | none =>
        rw [hrest] at h
        rcases List.mem_cons.mp hx with heq | hmem
        · subst heq
          rw [if_pos (beq_iff_eq.mpr hmx)] at h
          exact h
        · exact (ih.mp hrest) x hmem hmx
    · intro h
      simp only [lastPresentIp]
      have hrest : lastPresentIp rest m = none :=
        ih.mpr (fun x hx hmx => h x (List.mem_cons_of_mem r hx) hmx)
      rw [hrest]
      by_cases hm : r.macAddress == m
      · rw [if_pos hm]
        exact h r (List.mem_cons_self r rest) (beq_iff_eq.mp hm)
      · rw [if_neg hm]

/-- The last present IP comes from some row with that MAC. -/
theorem lastPresentIp_mem (m v : String) :
    ∀ rows : List PortRecord, lastPresentIp rows m = some v →
      ∃ r ∈ rows, r.macAddress = m ∧ r.ipAddress = some v := by
  intro rows
  induction rows with
  | nil => intro h; exact absurd h (by simp [lastPresentIp])
  | cons r rest ih =>
    intro h
    simp only [lastPresentIp] at h
    cases hrest : lastPresentIp rest m with
    | some w =>
      rw [hrest] at h
      obtain ⟨x, hx, hxm, hxv⟩ := ih (hrest.trans (by injection h with hh; rw [hh]))
      exact ⟨x, List.mem_cons_of_mem r hx, hxm, hxv⟩
    | none =>
      rw [hrest] at h
      by_cases hm : r.macAddress == m
      · rw [if_pos hm] at h
        exact ⟨r, List.mem_cons_self r rest, beq_iff_eq.mp hm, h⟩
      · rw [if_neg hm] at h
        exact absurd h (by simp)

/-- When every row with the MAC either lacks an IP or carries `v`, and
some row with the MAC carries `v`, the last present IP is `v`. -/
theorem lastPresentIp_unique (m v : String) (rows : List PortRecord)
    (hall : ∀ r ∈ rows, r.macAddress = m → r.ipAddress = none ∨ r.ipAddress = some v)
    (hex : ∃ r ∈ rows, r.macAddress = m ∧ r.ipAddress = some v) :
    lastPresentIp rows m = some v := by
  cases h : lastPresentIp rows m with
  | some w =>
    obtain ⟨x, hx, hxm, hxv⟩ := lastPresentIp_mem m w rows h
    rcases hall x hx hxm with hn | hs
    · rw [hn] at hxv; exact absurd hxv (by simp)
    · rw [hs] at hxv; injection hxv with hh; rw [hh]
  | none =>
    obtain ⟨x, hx, hxm, hxv⟩ := hex
    have := (lastPresentIp_eq_none_iff m rows).mp h x hx hxm
    rw [this] at hxv
    exact absurd hxv (by simp)

/-- Positional description of the backfill pass: a row with a present IP
is unchanged; a row with a missing IP gets the mapping's IP for its MAC,
the mapping binding each MAC to the IP of the last row carrying it with a
present IP. -/
theorem backfill_getD (rows : List PortRecord) (i : Nat) (hi : i < rows.length) :
    (backfill rows).getD i emptyRecord =
      match (rows.getD i emptyRecord).ipAddress with
      | some _ => rows.getD i emptyRecord
      | none =>
        { rows.getD i emptyRecord with
          ipAddress := lastPresentIp rows (rows.getD i emptyRecord).macAddress } := by
  show (rows.map _).getD i emptyRecord = _
  rw [getD_map_lt _ rows i hi emptyRecord emptyRecord]
  cases h : (rows.getD i emptyRecord).ipAddress with
  | some v => simp [h]
  | none => simp [h, dictLookup_eq_lastWrite, lastWrite_macToIpPairs]

/-! ## Claim C1 — aggregator IP backfill -/

/-- C1 counterexample: on three rows sharing MAC `aa` — IPs `10.0.0.1`,
`10.0.0.2`, missing, in that order — the backfill fills the third row with
`10.0.0.2`, the LATER writer's IP, whereas the claimed first-writer-wins
mapping would bind `aa` to `10.0.0.1`; the built dict disagrees with the
first-writer mapping at this input. -/
theorem backfill_first_writer_refuted :
    ((backfill c1Rows).getD 2 emptyRecord).ipAddress = some "10.0.0.2"
    ∧ (c1Rows.getD 0 emptyRecord).ipAddress = some "10.0.0.1"
    ∧ (c1Rows.getD 1 emptyRecord).ipAddress = some "10.0.0.2"
    ∧ (c1Rows.getD 2 emptyRecord).ipAddress = none
    ∧ (c1Rows.getD 0 emptyRecord).macAddress = "aa"
    ∧ (c1Rows.getD 1 emptyRecord).macAddress = "aa"
    ∧ (c1Rows.getD 2 emptyRecord).macAddress = "aa"
    ∧ dictLookup (macToIpPairs c1Rows) "aa" ≠ firstWriterLookup (macToIpPairs c1Rows) "aa"
    ∧ firstWriterLookup (macToIpPairs c1Rows) "aa" = some "10.0.0.1" := by
  decide

/-- C1 (amended): the aggregator's IP backfill builds its MAC-to-IP
mapping from the rows whose IP is present with LAST-writer-wins on a
duplicate MAC, leaves every row with a present IP unchanged, and fills
every row with a missing IP from that mapping keyed by the row's MAC (the
IP of the last row carrying that MAC with a present IP, or still missing
when there is none). -/
theorem backfill_last_writer_characterization (rows : List PortRecord) (i : Nat)
    (hi : i < rows.length) :
    ((backfill rows).getD i emptyRecord).macAddress =
      (rows.getD i emptyRecord).macAddress ∧
    (∀ v, (rows.getD i emptyRecord).ipAddress = some v →
      (backfill rows).getD i emptyRecord = rows.getD i emptyRecord) ∧
    ((rows.getD i emptyRecord).ipAddress = none →
      ((backfill rows).getD i emptyRecord).ipAddress =
        lastPresentIp rows (rows.getD i emptyRecord).macAddress) := by
  have h := backfill_getD rows i hi
  refine ⟨?_, ?_, ?_⟩
  · rw [h]
    cases hip : (rows.getD i emptyRecord).ipAddress <;> simp [hip]
  · intro v hv
    rw [h, hv]
  · intro hv
    rw [h, hv]

/-- C1 witness: the amended characterization applied to the concrete rows. -/
theorem backfill_last_writer_instance :
    ((backfill c1Rows).getD 2 emptyRecord).ipAddress =
      lastPresentIp c1Rows ((c1Rows.getD 2 emptyRecord).macAddress) :=
  (backfill_last_writer_characterization c1Rows 2 (by decide)).2.2 (by decide)

/-! ## Claim C8 — backfill on a pair of rows sharing a MAC -/

/-- C8 counterexample: rows 0 and 1 share MAC `bb` and exactly one of the
two (row 0, IP `10.1.1.1`) has a present IP, yet after backfill row 1
carries `10.2.2.2` — the IP of a third row with the same MAC — not row
0's IP. -/
theorem backfill_pair_third_row_overrides :
    (c8Rows.getD 0 emptyRecord).macAddress = (c8Rows.getD 1 emptyRecord).macAddress
    ∧ (c8Rows.getD 0 emptyRecord).ipAddress = some "10.1.1.1"
    ∧ (c8Rows.getD 1 emptyRecord).ipAddress = none
    ∧ ((backfill c8Rows).getD 1 emptyRecord).ipAddress = some "10.2.2.2"
    ∧ ((backfill c8Rows).getD 1 emptyRecord).ipAddress ≠ some "10.1.1.1" := by
  decide

/-- C8 (amended): for two rows sharing a MAC where exactly one of the two
has a present IP `v`, and every other row carrying that MAC either lacks
an IP or carries the same `v`, after backfill both rows carry `v`. -/
theorem backfill_pair_unique_ip (rows : List PortRecord) (i j : Nat) (v : String)
    (hi : i < rows.length) (hj : j < rows.length)
    (hmac : (rows.getD j emptyRecord).macAddress =
      (rows.getD i emptyRecord).macAddress)
    (hiv : (rows.getD i emptyRecord).ipAddress = some v)
    (hjn : (rows.getD j emptyRecord).ipAddress = none)
    (hother : ∀ r ∈ rows, r.macAddress = (rows.getD i emptyRecord).macAddress →
      r.ipAddress = none ∨ r.ipAddress = some v) :
    ((backfill rows).getD i emptyRecord).ipAddress = some v ∧
    ((backfill rows).getD j emptyRecord).ipAddress = some v := by
  constructor
  · rw [backfill_getD rows i hi, hiv]
    exact hiv
  · rw [backfill_getD rows j hj, hjn]
    show lastPresentIp rows (rows.getD j emptyRecord).macAddress = some v
    rw [hmac]
    exact lastPresentIp_unique _ v rows hother
      ⟨rows.getD i emptyRecord, getD_mem_of_lt rows i hi emptyRecord, rfl, hiv⟩

/-- C8 witness: the amended statement applied to two concrete rows. -/
theorem backfill_pair_unique_ip_instance :
    ((backfill [aggRow "cc" (some "10.9.9.9"), aggRow "cc" none]).getD 0
      emptyRecord).ipAddress = some "10.9.9.9" ∧
    ((backfill [aggRow "cc" (some "10.9.9.9"), aggRow "cc" none]).getD 1
      emptyRecord).ipAddress = some "10.9.9.9" :=
  backfill_pair_unique_ip [aggRow "cc" (some "10.9.9.9"), aggRow "cc" none] 0 1
    "10.9.9.9" (by decide) (by decide) (by decide) (by decide) (by decide)
    (by decide)

/-! ## Claim C10 — aggregation skips unreadable artifacts -/

/-- A worker result that contributes nothing is collected as nothing. -/
theorem collectStep_none_of_not_readable (store : List (String × List PortRecord))
    (r : Option String) (hr : readableResult store r = false) :
    collectStep store r = none := by
  cases r with
  | none => rfl
  | some f =>
    by_cases hb : (f != "") = true
    · have hnone : readFinalData store f = none := by
        cases hh : readFinalData store f with
        | none => rfl
        | some tbl =>
          rw [readableResult, hb, hh] at hr
          exact absurd hr (by simp)
      rw [collectStep, if_pos hb, hnone]
    · have hb2 : (f != "") = false := by
        cases hh : (f != "") with
        | false => rfl
        | true => exact absurd hh hb
      rw [collectStep, hb2]
      rfl

/-- Dropping the worker results that contribute nothing (null results,
empty filenames, unreadable artifacts) does not change what the
aggregation loop collects. -/
theorem collectDeviceData_filter (store : List (String × List PortRecord)) :
    ∀ results : List (Option String),
      collectDeviceData (results.filter (readableResult store)) store =
        collectDeviceData results store := by
  intro results
  induction results with
  | nil => rfl
  | cons r rest ih =>
    by_cases hr : readableResult store r = true
    · rw [List.filter_cons_of_pos hr]
      show List.filterMap (collectStep store) (r :: _) =
        List.filterMap (collectStep store) (r :: rest)
      rw [List.filterMap_cons, List.filterMap_cons]
      have ih2 : List.filterMap (collectStep store)
          (List.filter (readableResult store) rest) =
          List.filterMap (collectStep store) rest := ih
      rw [ih2]
    · have hr2 : readableResult store r = false := by
        cases hh : readableResult store r with
        | false => rfl
        | true => exact absurd hh hr
      rw [List.filter_cons_of_neg (by simp [hr2])]
      show List.filterMap (collectStep store) _ =
        List.filterMap (collectStep store) (r :: rest)
      rw [List.filterMap_cons, collectStep_none_of_not_readable store r hr2]
      exact ih

/-- C10: a worker result naming a missing or unreadable artifact is
skipped and aggregation continues with the remaining ones — aggregating
the results with the non-contributing ones dropped gives the same outcome
— and the aggregation ends without a FinalReport exactly when zero
artifacts could be read. -/
theorem aggregate_skips_unreadable (results : List (Option String))
    (store : List (String × List PortRecord)) :
    (aggregateModel results store = none ↔ collectDeviceData results store = []) ∧
    aggregateModel results store =
      aggregateModel (results.filter (readableResult store)) store := by
  constructor
  · cases h : (collectDeviceData results store).isEmpty with
    | true =>
      have h2 : collectDeviceData results store = [] := by
        cases hh : collectDeviceData results store with
        | nil => rfl
        | cons a l => rw [hh] at h; exact absurd h (by simp)
      simp [aggregateModel, h, h2]
    | false =>
      have h2 : collectDeviceData results store ≠ [] := by
        intro hh
        rw [hh] at h
        exact absurd h (by simp)
      simp [aggregateModel, h, h2]
  · show (let d := collectDeviceData results store
          if d.isEmpty then none else some (backfill d.flatten)) = _
    rw [show collectDeviceData results store =
      collectDeviceData (results.filter (readableResult store)) store from
      (collectDeviceData_filter store results).symm]
    rfl

/-! ## Claim C4 — empty PortRecord sequences -/

/-- C4 counterexample: on an empty MAC table the NX-OS worker returns the
would-be artifact filename, not a null result (while still writing no
artifact). -/
theorem nx_empty_mac_returns_filename :
    processSingleHostnameNX "sw1" [] emptyTablesNX = (some "sw1.xlsx", none)
    ∧ (some "sw1.xlsx" : Option String) ≠ none := by
  decide

/-- C4 (amended): whenever the PortRecord sequence comes out empty, no
artifact is written in either dialect, so the device contributes nothing
to aggregation; the IOS-XE worker returns a null result in both the
empty-MAC-table and the all-rows-excluded case, and so does the NX-OS
worker when rows were processed but none emitted, but the NX-OS worker
returns the would-be artifact filename on an empty MAC table (whose
read-back then fails and is skipped). -/
theorem empty_portrecords_no_artifact :
    (∀ (h : String) (t : TablesNX),
      processSingleHostnameNX h [] t = (some (h ++ ".xlsx"), none)) ∧
    (∀ (h : String) (t : TablesNX) (mac : List MacRow), mac ≠ [] →
      mac.filterMap (processRowNX h t) = [] →
      processSingleHostnameNX h mac t = (none, none)) ∧
    (∀ (h : String) (t : TablesXE),
      processSingleHostnameXE h [] t = (none, none)) ∧
    (∀ (h : String) (t : TablesXE) (mac : List MacRowXE),
      mac.filterMap (processRowXE h t) = [] →
      processSingleHostnameXE h mac t = (none, none)) ∧
    (∀ (h : String) (t : TablesNX) (mac : List MacRow),
      (processSingleHostnameNX h mac t).2 = none ↔
        mac.filterMap (processRowNX h t) = []) ∧
    (∀ (h : String) (t : TablesXE) (mac : List MacRowXE),
      (processSingleHostnameXE h mac t).2 = none ↔
        mac.filterMap (processRowXE h t) = []) := by
  refine ⟨?_, ?_, ?_, ?_, ?_, ?_⟩
  · intro h t
    rfl
  · intro h t mac hm hr
    have hm2 : mac.isEmpty = false := by
      cases mac with
      | nil => exact absurd rfl hm
      | cons a l => rfl
    simp [processSingleHostnameNX, hm2, hr]
  · intro h t
    rfl
  · intro h t mac hr
    cases mac with
    | nil => rfl
    | cons a l => simp [processSingleHostnameXE, hr]
  · intro h t mac
    cases mac with
    | nil => simp [processSingleHostnameNX]
    | cons a l =>
      by_cases hr : ((a :: l).filterMap (processRowNX h t)).isEmpty
      · have hr2 : (a :: l).filterMap (processRowNX h t) = [] := by
          cases hh : (a :: l).filterMap (processRowNX h t) with
          | nil => rfl
          | cons x xs => rw [hh] at hr; exact absurd hr (by simp)
        simp [processSingleHostnameNX, hr, hr2]
      · have hr2 : (a :: l).filterMap (processRowNX h t) ≠ [] := by
          intro hh
          rw [hh] at hr
          exact absurd (by simp : ([] : List PortRecord).isEmpty = true) hr
        simp [processSingleHostnameNX, hr, hr2]
  · intro h t mac
    cases mac with
    | nil => simp [processSingleHostnameXE]
    | cons a l =>
      by_cases hr : ((a :: l).filterMap (processRowXE h t)).isEmpty
      · have hr2 : (a :: l).filterMap (processRowXE h t) = [] := by
          cases hh : (a :: l).filterMap (processRowXE h t) with
          | nil => rfl
          | cons x xs => rw [hh] at hr; exact absurd hr (by simp)
        simp [processSingleHostnameXE, hr, hr2]
      · have hr2 : (a :: l).filterMap (processRowXE h t) ≠ [] := by
          intro hh
          rw [hh] at hr
          exact absurd (by simp : ([] : List PortRecord).isEmpty = true) hr
        simp [processSingleHostnameXE, hr, hr2]

/-- C4 witness: a MAC table whose single row is vPC-excluded yields a null
result and no artifact in the NX-OS worker. -/
theorem empty_portrecords_no_artifact_instance :
    processSingleHostnameNX "sw1" [⟨"vPC-peer", "aa", "1"⟩] emptyTablesNX =
      (none, none) :=
  empty_portrecords_no_artifact.2.1 "sw1" emptyTablesNX [⟨"vPC-peer", "aa", "1"⟩]
    (by decide) (by decide)

/-! ## Claim C3 — row exclusion rules -/

/-- C3 counterexample: an IOS-XE row whose port list is `[CPU0]` — its
first element contains `CPU` as a substring — is NOT skipped (the code
tests list membership of the exact element `CPU`, not a substring of the
first element), and yields a PortRecord. -/
theorem xe_cpu_substring_row_not_excluded :
    (processRowXE "sw1" emptyTablesXE c3RowXE).isSome = true
    ∧ hasSub "CPU" (portOfListXE c3RowXE.PORTS) = true
    ∧ c3RowXE.PORTS.contains "CPU" = false := by
  decide

/-- C3 (amended): the NX-OS builder (`logic.py`) skips a row exactly when
its port string contains `vPC`; the IOS-XE builder skips a row exactly
when its port list contains an element equal to `CPU` (a list-membership
test on the whole list, not a substring test on the first element) or the
resolved port (the list's first element) is empty; the sequential NX-OS
variant's exclusion condition (`"sup" or "vPC" not in row['PORTS']`) is
always true, so it never skips a row; every non-skipped row yields exactly
one PortRecord. -/
theorem exclusion_rules_characterization :
    (∀ (h : String) (t : TablesNX) (row : MacRow),
      processRowNX h t row = none ↔ hasSub "vPC" row.PORTS = true) ∧
    (∀ (h : String) (t : TablesXE) (row : MacRowXE),
      processRowXE h t row = none ↔
        (row.PORTS.contains "CPU" = true ∨ portOfListXE row.PORTS = "")) ∧
    (∀ row : MacRow, includeRowSingle row = true) := by
  refine ⟨?_, ?_, ?_⟩
  · intro h t row
    by_cases hv : hasSub "vPC" row.PORTS = true
    · simp [processRowNX, hv]
    · simp [processRowNX, hv]
  · intro h t row
    by_cases hc : row.PORTS.contains "CPU" = true
    · have hc2 : "CPU" ∈ row.PORTS := by simpa using hc
      simp [processRowXE, hc, hc2]
    · by_cases hp : portOfListXE row.PORTS = ""
      · simp [processRowXE, hc, hp]
      · simp [processRowXE, hc, hp]
  · intro row
    simp [includeRowSingle, pyTruthyStr]

/-! ## Claim C2 — session-level split validation -/

/-- The splitting fold, from an arbitrary accumulator: each file appends
its own error messages and its own segment files. -/
theorem executeSplit_foldl (files : List (String × String)) :
    ∀ (errs : List String) (outs : List (String × String × String)),
      files.foldl executeSplitStep (errs, outs) =
        (errs ++ (files.map (fun f => (fileOutcome f).1)).flatten,
         outs ++ (files.map (fun f => (fileOutcome f).2)).flatten) := by
  induction files with
  | nil => intro errs outs; simp
  | cons f rest ih =>
    intro errs outs
    rw [List.foldl_cons]
    by_cases hm : (missingCommands f.2).isEmpty
    · have hstep : executeSplitStep (errs, outs) f =
          (errs, outs ++ (deviceSegments f.1 f.2).map
            (fun seg => (f.1, seg.1, seg.2))) := by
        simp [executeSplitStep, hm]
      have hout : fileOutcome f =
          ([], (deviceSegments f.1 f.2).map (fun seg => (f.1, seg.1, seg.2))) := by
        simp [fileOutcome, hm]
      rw [hstep, ih]
      simp [hout, List.append_assoc]
    · have hm2 : (missingCommands f.2).isEmpty = false := by
        cases hh : (missingCommands f.2).isEmpty with
        | false => rfl
        | true => exact absurd hh hm
      have hstep : executeSplitStep (errs, outs) f =
          (errs ++ [missingErrorMessage f.1 (missingCommands f.2)], outs) := by
        simp [executeSplitStep, hm2]
      have hout : fileOutcome f =
          ([missingErrorMessage f.1 (missingCommands f.2)], []) := by
        simp [fileOutcome, hm2]
      rw [hstep, ih]
      simp [hout, List.append_assoc]

/-- C2 (amended): for every session, the splitting stage returns exactly
the concatenation of the per-file error messages (one message per file
failing validation, naming every missing command of that file) and writes
exactly the concatenation of the per-file segment files of the files that
pass validation — so a device whose capture misses a marker gets a message
and no segment files, while a device whose capture contains all nine
markers gets its segment files written even when another device failed;
the caller then aborts the session before parsing because the message list
is non-empty. -/
theorem split_session_characterization (files : List (String × String)) :
    executeSplitModel files =
      ((files.map (fun f => (fileOutcome f).1)).flatten,
       (files.map (fun f => (fileOutcome f).2)).flatten) ∧
    (∀ f ∈ files, ¬ missingCommands f.2 = [] →
      missingErrorMessage f.1 (missingCommands f.2) ∈ (executeSplitModel files).1) ∧
    (∀ f ∈ files, missingCommands f.2 = [] →
      ∀ seg ∈ deviceSegments f.1 f.2,
        (f.1, seg.1, seg.2) ∈ (executeSplitModel files).2) := by
  have hchar : executeSplitModel files =
      ((files.map (fun f => (fileOutcome f).1)).flatten,
       (files.map (fun f => (fileOutcome f).2)).flatten) := by
    show files.foldl executeSplitStep ([], []) = _
    rw [executeSplit_foldl files [] []]
    simp
  refine ⟨hchar, ?_, ?_⟩
  · intro f hf hmiss
    rw [hchar]
    have hm2 : (missingCommands f.2).isEmpty = false := by
      cases hh : missingCommands f.2 with
      | nil => exact absurd hh hmiss
      | cons a l => rfl
    have hout : (fileOutcome f).1 =
        [missingErrorMessage f.1 (missingCommands f.2)] := by
      simp [fileOutcome, hm2]
    refine List.mem_flatten.mpr ⟨(fileOutcome f).1, ?_, ?_⟩
    · exact List.mem_map_of_mem _ hf
    · rw [hout]
      exact List.mem_singleton.mpr rfl
  · intro f hf hmiss seg hseg
    rw [hchar]
    have hm2 : (missingCommands f.2).isEmpty = true := by
      rw [hmiss]
      rfl
    have hout : (fileOutcome f).2 =
        (deviceSegments f.1 f.2).map (fun seg => (f.1, seg.1, seg.2)) := by
      simp [fileOutcome, hm2]
    refine List.mem_flatten.mpr ⟨(fileOutcome f).2, ?_, ?_⟩
    · exact List.mem_map_of_mem _ hf
    · rw [hout]
      exact List.mem_map_of_mem _ hseg

/-- C2 counterexample: on a session with one invalid capture and one valid
capture, splitting reports the invalid file's missing commands AND still
writes all nine segment files of the valid device — the failure does not
prevent the valid device's segment files from being produced. -/
theorem split_valid_device_still_writes :
    (executeSplitModel c2Files).1 ≠ []
    ∧ (executeSplitModel c2Files).2.map (fun o => (o.1, o.2.1)) =
      [("sw1", "show_interface_description.txt"),
       ("sw1", "show_interface_status.txt"),
       ("sw1", "show_interface_trunk.txt"),
       ("sw1", "show_port-channel_summary.txt"),
       ("sw1", "show_ip_arp.txt"),
       ("sw1", "show_mac_address-table.txt"),
       ("sw1", "show_inventory.txt"),
       ("sw1", "show_cdp_neighbors.txt"),
       ("sw1", "show_lldp_neighbors.txt")]
    ∧ missingCommands (c2Files.getD 0 ("", "")).2 ≠ [] := by
  decide

/-! ## Claim C6 — CableType derivation -/

/-- Case split of the port-channel cable-type rule. -/
theorem typeCablePo_cases (sfp : Option String) :
    (typeCablePo sfp = "UTP" ↔ hasSub "T" (pyStr sfp) = true) ∧
    (typeCablePo sfp = "Fiber" ↔
      (hasSub "T" (pyStr sfp) = false ∧ pyTruthy sfp = true)) ∧
    (typeCablePo sfp = "???" ↔
      (hasSub "T" (pyStr sfp) = false ∧ pyTruthy sfp = false)) := by
  unfold typeCablePo
  by_cases h1 : hasSub "T" (pyStr sfp) = true
  · simp [h1]
  · have h1f : hasSub "T" (pyStr sfp) = false := by
      cases hh : hasSub "T" (pyStr sfp) with
      | false => rfl
      | true => exact absurd hh h1
    by_cases h2 : pyTruthy sfp = true
    · simp [h1f, h2]
    · have h2f : pyTruthy sfp = false := by
        cases hh : pyTruthy sfp with
        | false => rfl
        | true => exact absurd hh h2
      simp [h1f, h2f]

/-- Case split of the non-port-channel cable-type rule: `UTP` takes
precedence, so a port containing `Vlan` still yields `UTP` when the
resolved SFP type contains `T`. -/
theorem typeCableNonPo_cases (sfp : Option String) (port : String) :
    (typeCableNonPo sfp port = "UTP" ↔ hasSub "T" (pyStr sfp) = true) ∧
    (typeCableNonPo sfp port = "Fiber" ↔
      (hasSub "T" (pyStr sfp) = false ∧ pyTruthy sfp = true ∧
        hasSub "Vlan" port = false)) ∧
    (typeCableNonPo sfp port = "???" ↔
      (hasSub "T" (pyStr sfp) = false ∧
        (pyTruthy sfp = false ∨ hasSub "Vlan" port = true))) := by
  unfold typeCableNonPo
  by_cases h1 : hasSub "T" (pyStr sfp) = true
  · simp [h1]
  · have h1f : hasSub "T" (pyStr sfp) = false := by
      cases hh : hasSub "T" (pyStr sfp) with
      | false => rfl
      | true => exact absurd hh h1
    by_cases h2 : pyTruthy sfp = true
    · by_cases h3 : hasSub "Vlan" port = true
      · simp [h1f, h2, h3]
      · have h3f : hasSub "Vlan" port = false := by
          cases hh : hasSub "Vlan" port with
          | false => rfl
          | true => exact absurd hh h3
        simp [h1f, h2, h3f]
    · have h2f : pyTruthy sfp = false := by
        cases hh : pyTruthy sfp with
        | false => rfl
        | true => exact absurd hh h2
      by_cases h3 : hasSub "Vlan" port = true
      · simp [h1f, h2f, h3]
      · have h3f : hasSub "Vlan" port = false := by
          cases hh : hasSub "Vlan" port with
          | false => rfl
          | true => exact absurd hh h3
        simp [h1f, h2f, h3f]

/-- The NX-OS builder derives the emitted record's CableType from the
record's resolved SFP through the branch rule selected by the port. -/
theorem processRowNX_tipeKabel (h : String) (t : TablesNX) (row : MacRow)
    (hv : hasSub "vPC" row.PORTS = false) :
    ((processRowNX h t row).getD emptyRecord).tipeKabel =
      (if pyStartsWith row.PORTS "Po" then
        typeCablePo ((processRowNX h t row).getD emptyRecord).sfp
      else
        typeCableNonPo ((processRowNX h t row).getD emptyRecord).sfp
          row.PORTS) := by
  by_cases hp : pyStartsWith row.PORTS "Po" = true
  · simp [processRowNX, hv, hp]
  · have hp2 : pyStartsWith row.PORTS "Po" = false := by
      cases hh : pyStartsWith row.PORTS "Po" with
      | false => rfl
      | true => exact absurd hh hp
    simp [processRowNX, hv, hp2]

/-- The IOS-XE builder derives the emitted record's CableType the same way. -/
theorem processRowXE_tipeKabel (h : String) (t : TablesXE) (row : MacRowXE)
    (hc : row.PORTS.contains "CPU" = false)
    (hp0 : (portOfListXE row.PORTS == "") = false) :
    ((processRowXE h t row).getD emptyRecord).tipeKabel =
      (if pyStartsWith (portOfListXE row.PORTS) "Po" then
        typeCablePo ((processRowXE h t row).getD emptyRecord).sfp
      else
        typeCableNonPo ((processRowXE h t row).getD emptyRecord).sfp
          (portOfListXE row.PORTS)) := by
  have hc2 : ¬ ("CPU" ∈ row.PORTS) := by simpa using hc
  have hne : ¬ (portOfListXE row.PORTS = "") := by simpa using hp0
  by_cases hp : pyStartsWith (portOfListXE row.PORTS) "Po" = true
  · simp [processRowXE, hc2, hne, hp]
  · have hp2 : pyStartsWith (portOfListXE row.PORTS) "Po" = false := by
      cases hh : pyStartsWith (portOfListXE row.PORTS) "Po" with
      | false => rfl
      | true => exact absurd hh hp
    simp [processRowXE, hc2, hne, hp2]

/-- C6 counterexample: a row on port `Vlan10` whose resolved SFP type is
`10GBaseT` (containing `T`) yields CableType `UTP`, not the unknown
sentinel — the `Vlan` condition does NOT force the unknown value when the
SFP type contains `T`. -/
theorem cabletype_vlan_port_utp :
    (processRowNX "sw1" c6Tables c6Row).map (fun r => (r.tipeKabel, r.sfp, r.port))
      = some ("UTP", some "10GBaseT", "Vlan10")
    ∧ hasSub "Vlan" "Vlan10" = true
    ∧ ("UTP" : String) ≠ "???" := by
  decide

/-- C6 (amended): for every emitted PortRecord (both dialect builders),
CableType is `UTP` iff the resolved SFP string (through Python `str`, so
`None` otherwise) contains `T` — this takes precedence over every other
condition; `Fiber` iff not `UTP`, the SFP value is truthy, and (in the
non-port-channel branch) the port does not contain `Vlan`; and the unknown
sentinel `???` iff not `UTP` and either the SFP value is falsy or (non-
port-channel branch) the port contains `Vlan`.  Only the sequential
`logic-single.py` variant's non-port-channel rule makes `Vlan` force the
unknown sentinel regardless of the resolved SFP type. -/
theorem cabletype_characterization :
    (∀ (h : String) (t : TablesNX) (row : MacRow),
      hasSub "vPC" row.PORTS = false →
      ((((processRowNX h t row).getD emptyRecord).tipeKabel = "UTP" ↔
          hasSub "T" (pyStr ((processRowNX h t row).getD emptyRecord).sfp) = true) ∧
       (((processRowNX h t row).getD emptyRecord).tipeKabel = "Fiber" ↔
          (hasSub "T" (pyStr ((processRowNX h t row).getD emptyRecord).sfp) = false ∧
           pyTruthy ((processRowNX h t row).getD emptyRecord).sfp = true ∧
           (pyStartsWith row.PORTS "Po" = true ∨ hasSub "Vlan" row.PORTS = false))) ∧
       (((processRowNX h t row).getD emptyRecord).tipeKabel = "???" ↔
          (hasSub "T" (pyStr ((processRowNX h t row).getD emptyRecord).sfp) = false ∧
           (pyTruthy ((processRowNX h t row).getD emptyRecord).sfp = false ∨
            (pyStartsWith row.PORTS "Po" = false ∧
             hasSub "Vlan" row.PORTS = true)))))) ∧
    (∀ (h : String) (t : TablesXE) (row : MacRowXE),
      row.PORTS.contains "CPU" = false →
      (portOfListXE row.PORTS == "") = false →
      ((((processRowXE h t row).getD emptyRecord).tipeKabel = "UTP" ↔
          hasSub "T" (pyStr ((processRowXE h t row).getD emptyRecord).sfp) = true) ∧
       (((processRowXE h t row).getD emptyRecord).tipeKabel = "Fiber" ↔
          (hasSub "T" (pyStr ((processRowXE h t row).getD emptyRecord).sfp) = false ∧
           pyTruthy ((processRowXE h t row).getD emptyRecord).sfp = true ∧
           (pyStartsWith (portOfListXE row.PORTS) "Po" = true ∨
            hasSub "Vlan" (portOfListXE row.PORTS) = false))) ∧
       (((processRowXE h t row).getD emptyRecord).tipeKabel = "???" ↔
          (hasSub "T" (pyStr ((processRowXE h t row).getD emptyRecord).sfp) = false ∧
           (pyTruthy ((processRowXE h t row).getD emptyRecord).sfp = false ∨
            (pyStartsWith (portOfListXE row.PORTS) "Po" = false ∧
             hasSub "Vlan" (portOfListXE row.PORTS) = true)))))) ∧
    (∀ (sfp : Option String) (port : String), hasSub "Vlan" port = true →
      typeCableSingleNonPo sfp port = "???") := by
  refine ⟨?_, ?_, ?_⟩
  · intro h t row hv
    rw [processRowNX_tipeKabel h t row hv]
    by_cases hp : pyStartsWith row.PORTS "Po" = true
    · simp only [hp, if_true]
      obtain ⟨c1, c2, c3⟩ :=
        typeCablePo_cases ((processRowNX h t row).getD emptyRecord).sfp
      refine ⟨c1, ?_, ?_⟩
      · rw [c2]
        simp [hp]
      · rw [c3]
        simp [hp]
    · have hp2 : pyStartsWith row.PORTS "Po" = false := by
        cases hh : pyStartsWith row.PORTS "Po" with
        | false => rfl
        | true => exact absurd hh hp
      simp only [hp2, Bool.false_eq_true, if_false]
      obtain ⟨c1, c2, c3⟩ :=
        typeCableNonPo_cases ((processRowNX h t row).getD emptyRecord).sfp row.PORTS
      refine ⟨c1, ?_, ?_⟩
      · rw [c2]
        simp [hp2]
      · rw [c3]
        simp [hp2]
  · intro h t row hc hp0
    rw [processRowXE_tipeKabel h t row hc hp0]
    by_cases hp : pyStartsWith (portOfListXE row.PORTS) "Po" = true
    · simp only [hp, if_true]
      obtain ⟨c1, c2, c3⟩ :=
        typeCablePo_cases ((processRowXE h t row).getD emptyRecord).sfp
      refine ⟨c1, ?_, ?_⟩
      · rw [c2]
        simp [hp]
      · rw [c3]
        simp [hp]
    · have hp2 : pyStartsWith (portOfListXE row.PORTS) "Po" = false := by
        cases hh : pyStartsWith (portOfListXE row.PORTS) "Po" with
        | false => rfl
        | true => exact absurd hh hp
      simp only [hp2, Bool.false_eq_true, if_false]
      obtain ⟨c1, c2, c3⟩ :=
        typeCableNonPo_cases ((processRowXE h t row).getD emptyRecord).sfp
          (portOfListXE row.PORTS)
      refine ⟨c1, ?_, ?_⟩
      · rw [c2]
        simp [hp2]
      · rw [c3]
        simp [hp2]
  · intro sfp port hvlan
    simp [typeCableSingleNonPo, hvlan]

/-- C6 witness: the amended characterization applied to the `Vlan10` row
with SFP type `10GBaseT` gives CableType `UTP`. -/
theorem cabletype_characterization_instance :
    ((processRowNX "sw1" c6Tables c6Row).getD emptyRecord).tipeKabel = "UTP" :=
  ((cabletype_characterization.1 "sw1" c6Tables c6Row (by decide)).1).mpr (by decide)

/-! ## Claim C7 — empty tables never fault, lookups yield not-found -/

/-- C7: a non-excluded MAC-table row is always processed to a PortRecord
(the guarded lookups are total), and each lookup against an empty table
yields its not-found outcome: null serial number when InventoryTable is
empty, null IP when IpArpTable is empty, null description when
InterfaceDescriptionTable is empty, empty MemberPO when
PortChannelSummaryTable is empty, null SFP and empty Trunk/Access when
InterfaceStatusTable is empty, null CDP fields when CdpNeighborsTable is
empty, null LLDP fields when LldpNeighborsTable is empty, and empty
AllowedVLAN when InterfaceTrunkTable is empty — in both dialect builders,
with the other tables arbitrary. -/
theorem empty_tables_lookups_not_found :
    (∀ (h : String) (t : TablesNX) (row : MacRow),
      hasSub "vPC" row.PORTS = false →
      ((processRowNX h t row).isSome = true ∧
       (t.inventory = [] →
         ((processRowNX h t row).getD emptyRecord).serialNumber = none) ∧
       (t.ip_arp = [] →
         ((processRowNX h t row).getD emptyRecord).ipAddress = none) ∧
       (t.interface_description = [] →
         ((processRowNX h t row).getD emptyRecord).description = none) ∧
       (t.port_channel_summary = [] →
         ((processRowNX h t row).getD emptyRecord).memberPO = "") ∧
       (t.interface_status = [] →
         ((processRowNX h t row).getD emptyRecord).sfp = none ∧
         ((processRowNX h t row).getD emptyRecord).trunkAccess = "") ∧
       (t.cdp_neighbors = [] →
         ((processRowNX h t row).getD emptyRecord).cdpNeighborHostname = none ∧
         ((processRowNX h t row).getD emptyRecord).cdpNeighborPlatform = none ∧
         ((processRowNX h t row).getD emptyRecord).cdpNeighborPort = none) ∧
       (t.lldp_neighbors = [] →
         ((processRowNX h t row).getD emptyRecord).lldpNeighborHostname = none ∧
         ((processRowNX h t row).getD emptyRecord).lldpNeighborPort = none) ∧
       (t.interface_trunk = [] →
         ((processRowNX h t row).getD emptyRecord).allowedVLAN = ""))) ∧
    (∀ (h : String) (t : TablesXE) (row : MacRowXE),
      row.PORTS.contains "CPU" = false →
      (portOfListXE row.PORTS == "") = false →
      ((processRowXE h t row).isSome = true ∧
       (t.inventory = [] →
         ((processRowXE h t row).getD emptyRecord).serialNumber = none) ∧
       (t.ip_arp = [] →
         ((processRowXE h t row).getD emptyRecord).ipAddress = none) ∧
       (t.interface_description = [] →
         ((processRowXE h t row).getD emptyRecord).description = none) ∧
       (t.port_channel_summary = [] →
         ((processRowXE h t row).getD emptyRecord).memberPO = "") ∧
       (t.interface_status = [] →
         ((processRowXE h t row).getD emptyRecord).sfp = none ∧
         ((processRowXE h t row).getD emptyRecord).trunkAccess = "") ∧
       (t.cdp_neighbors = [] →
         ((processRowXE h t row).getD emptyRecord).cdpNeighborHostname = none ∧
         ((processRowXE h t row).getD emptyRecord).cdpNeighborPlatform = none ∧
         ((processRowXE h t row).getD emptyRecord).cdpNeighborPort = none) ∧
       (t.lldp_neighbors = [] →
         ((processRowXE h t row).getD emptyRecord).lldpNeighborHostname = none ∧
         ((processRowXE h t row).getD emptyRecord).lldpNeighborPort = none) ∧
       (t.interface_trunk = [] →
         ((processRowXE h t row).getD emptyRecord).allowedVLAN = ""))) := by
  constructor
  · intro h t row hv
    refine ⟨?_, ?_, ?_, ?_, ?_, ?_, ?_, ?_, ?_⟩
    · simp [processRowNX, hv]
    · intro he
      simp [processRowNX, hv, he]
    · intro he
      simp [processRowNX, hv, he]
    · intro he
      simp [processRowNX, hv, he]
    · intro he
      by_cases hp : pyStartsWith row.PORTS "Po" = true
      · simp [processRowNX, hv, he, hp, memberPoNX]
      · have hp2 : pyStartsWith row.PORTS "Po" = false := by
          cases hh : pyStartsWith row.PORTS "Po" with
          | false => rfl
          | true => exact absurd hh hp
        simp [processRowNX, hv, he, hp2]
    · intro he
      by_cases hp : pyStartsWith row.PORTS "Po" = true
      · constructor
        · simp [processRowNX, hv, he, hp]
        · simp [processRowNX, hv, he, hp]
      · have hp2 : pyStartsWith row.PORTS "Po" = false := by
          cases hh : pyStartsWith row.PORTS "Po" with
          | false => rfl
          | true => exact absurd hh hp
        constructor
        · simp [processRowNX, hv, he, hp2]
        · simp [processRowNX, hv, he, hp2]
    · intro he
      refine ⟨?_, ?_, ?_⟩ <;> simp [processRowNX, hv, he]
    · intro he
      constructor <;> simp [processRowNX, hv, he]
    · intro he
      simp [processRowNX, hv, he]
  · intro h t row hc hp0
    have hc2 : ¬ ("CPU" ∈ row.PORTS) := by simpa using hc
    have hne : ¬ (portOfListXE row.PORTS = "") := by simpa using hp0
    refine ⟨?_, ?_, ?_, ?_, ?_, ?_, ?_, ?_, ?_⟩
    · simp [processRowXE, hc2, hne]
    · intro he
      simp [processRowXE, hc2, hne, he]
    · intro he
      simp [processRowXE, hc2, hne, he]
    · intro he
      simp [processRowXE, hc2, hne, he]
    · intro he
      by_cases hp : pyStartsWith (portOfListXE row.PORTS) "Po" = true
      · simp [processRowXE, memberPoXE, hc2, hne, he, hp]
      · have hp2 : pyStartsWith (portOfListXE row.PORTS) "Po" = false := by
          cases hh : pyStartsWith (portOfListXE row.PORTS) "Po" with
          | false => rfl
          | true => exact absurd hh hp
        simp [processRowXE, memberPoXE, hc2, hne, he, hp2]
    · intro he
      by_cases hp : pyStartsWith (portOfListXE row.PORTS) "Po" = true
      · constructor
        · simp [processRowXE, hc2, hne, he, hp]
        · simp [processRowXE, hc2, hne, he, hp]
      · have hp2 : pyStartsWith (portOfListXE row.PORTS) "Po" = false := by
          cases hh : pyStartsWith (portOfListXE row.PORTS) "Po" with
          | false => rfl
          | true => exact absurd hh hp
        constructor
        · simp [processRowXE, hc2, hne, he, hp2]
        · simp [processRowXE, hc2, hne, he, hp2]
    · intro he
      refine ⟨?_, ?_, ?_⟩ <;> simp [processRowXE, hc2, hne, he]
    · intro he
      constructor <;> simp [processRowXE, hc2, hne, he]
    · intro he
      simp [processRowXE, hc2, hne, he]

/-- C7 witness: the theorem applied to a concrete non-excluded row and
the all-empty tables of each dialect. -/
theorem empty_tables_lookups_not_found_instance :
    ((processRowNX "sw1" emptyTablesNX ⟨"Eth1/1", "aa", "1"⟩).getD
      emptyRecord).serialNumber = none ∧
    ((processRowXE "sw1" emptyTablesXE ⟨["Gi1/0/1"], "aa", "1"⟩).getD
      emptyRecord).ipAddress = none :=
  ⟨(empty_tables_lookups_not_found.1 "sw1" emptyTablesNX ⟨"Eth1/1", "aa", "1"⟩
      (by decide)).2.1 rfl,
   (empty_tables_lookups_not_found.2 "sw1" emptyTablesXE ⟨["Gi1/0/1"], "aa", "1"⟩
      (by decide) (by decide)).2.2.1 rfl⟩

/-! ## Claim C5 — port-channel CDP resolution -/

/-- For a port-channel row with a non-empty CDP table, the emitted
record's CDP fields come from the member-interface accumulation fold. -/
theorem processRowNX_cdp_po (h : String) (t : TablesNX) (row : MacRow)
    (hv : hasSub "vPC" row.PORTS = false)
    (hpo : pyStartsWith row.PORTS "Po" = true)
    (hcdp : t.cdp_neighbors.isEmpty = false) :
    ((processRowNX h t row).getD emptyRecord).cdpNeighborHostname =
      some (cdpPoResolve t.cdp_neighbors (memberPoNX t row.PORTS)).1 ∧
    ((processRowNX h t row).getD emptyRecord).cdpNeighborPort =
      some (cdpPoResolve t.cdp_neighbors (memberPoNX t row.PORTS)).2.2 := by
  constructor <;> simp [processRowNX, hv, hpo, hcdp]

/-- One accumulation step on a member interface whose unique CDP row is
known. -/
theorem cdpFoldStep_hit (cdps : List CdpRow) (acc : String × String × String)
    (intf : String) (r : CdpRow)
    (hintf : (intf == "") = false)
    (hfil : (cdps.filter (fun x => x.LOCAL_INTERFACE == intf)).head? = some r) :
    cdpFoldStep cdps acc intf =
      (if !(hasSub r.NEIGHBOR_NAME acc.1) then r.NEIGHBOR_NAME else acc.1,
       if !(hasSub r.PLATFORM acc.2.1) then r.PLATFORM else acc.2.1,
       if acc.2.2 != "" then acc.2.2 ++ ", " ++ r.NEIGHBOR_INTERFACE
       else r.NEIGHBOR_INTERFACE) := by
  rw [cdpFoldStep, if_neg (by simp [hintf]), hfil]

/-- Two-member corollary of the NX-OS port-channel CDP accumulation: with
members `Eth1/1` and `Eth1/2` carrying arbitrary neighbor values, the
emitted hostname is the second member's (overwriting the first) and the
port concatenates both neighbor interfaces. -/
theorem cdp_po_two_member_resolution (hn mac vlan h1 pl1 p1 h2 pl2 p2 : String)
    (hh1 : h1 ≠ "") (hp1 : p1 ≠ "") (hdist : hasSub h2 h1 = false) :
    (processRowNX hn (twoMemberPoTables h1 pl1 p1 h2 pl2 p2)
        ⟨"Po1", mac, vlan⟩).map
        (fun r => (r.cdpNeighborHostname, r.cdpNeighborPort)) =
      some (some h2, some (p1 ++ ", " ++ p2)) := by
  have hv : hasSub "vPC" "Po1" = false := by decide
  have hpo : pyStartsWith "Po1" "Po" = true := by decide
  have hbridge := processRowNX_cdp_po hn (twoMemberPoTables h1 pl1 p1 h2 pl2 p2)
    ⟨"Po1", mac, vlan⟩ hv hpo rfl
  have hsome : (processRowNX hn (twoMemberPoTables h1 pl1 p1 h2 pl2 p2)
      ⟨"Po1", mac, vlan⟩).isSome = true := by
    simp [processRowNX, hv]
  obtain ⟨r, hr⟩ := Option.isSome_iff_exists.mp hsome
  rw [hr] at hbridge ⊢
  simp only [Option.getD_some] at hbridge
  have hmem : memberPoNX (twoMemberPoTables h1 pl1 p1 h2 pl2 p2) "Po1" =
      "Eth1/1, Eth1/2" := rfl
  have hfil1 : ((twoMemberPoTables h1 pl1 p1 h2 pl2 p2).cdp_neighbors.filter
      (fun x => x.LOCAL_INTERFACE == "Eth1/1")).head? =
      some ⟨"Eth1/1", h1, pl1, p1⟩ := rfl
  have hfil2 : ((twoMemberPoTables h1 pl1 p1 h2 pl2 p2).cdp_neighbors.filter
      (fun x => x.LOCAL_INTERFACE == "Eth1/2")).head? =
      some ⟨"Eth1/2", h2, pl2, p2⟩ := rfl
  have hstep1 : cdpFoldStep (twoMemberPoTables h1 pl1 p1 h2 pl2 p2).cdp_neighbors
      ("", "", "") "Eth1/1" =
      (h1, if !(hasSub pl1 "") then pl1 else "", p1) := by
    rw [cdpFoldStep_hit _ _ _ _ (by decide) hfil1]
    rw [hasSub_empty_hay hh1]
    simp
  have hstep2 : cdpFoldStep (twoMemberPoTables h1 pl1 p1 h2 pl2 p2).cdp_neighbors
      (h1, if !(hasSub pl1 "") then pl1 else "", p1) "Eth1/2" =
      (h2, if !(hasSub pl2 (if !(hasSub pl1 "") then pl1 else "")) then pl2
           else (if !(hasSub pl1 "") then pl1 else ""),
       p1 ++ ", " ++ p2) := by
    rw [cdpFoldStep_hit _ _ _ _ (by decide) hfil2]
    have hb : (p1 != "") = true := by
      cases hh : (p1 != "") with
      | true => rfl
      | false =>
        have : p1 = "" := by
          have := congrArg (fun b => !b) hh
          simpa [bne] using this
        exact absurd this hp1
    rw [hdist]
    simp [hb]
  have hfold : cdpPoResolve (twoMemberPoTables h1 pl1 p1 h2 pl2 p2).cdp_neighbors
      "Eth1/1, Eth1/2" =
      (h2, if !(hasSub pl2 (if !(hasSub pl1 "") then pl1 else "")) then pl2
           else (if !(hasSub pl1 "") then pl1 else ""),
       p1 ++ ", " ++ p2) := by
    rw [cdpPoResolve, show pySplitOn "Eth1/1, Eth1/2" ", " = ["Eth1/1", "Eth1/2"]
      from by decide]
    rw [List.foldl_cons, List.foldl_cons, List.foldl_nil, hstep1, hstep2]
  rw [hmem, hfold] at hbridge
  simp [hbridge.1, hbridge.2]

/-- C5 counterexample: port-channel `Po1` with members `Eth1/1` (neighbor
hostname `A`, interface `Gi0/1`) and `Eth1/2` (neighbor hostname `B`,
interface `Gi0/1`): the emitted record's CdpNeighborHostname is `B` — the
last distinct hostname, not the first — and CdpNeighborPort is
`Gi0/1, Gi0/1`, the same neighbor-interface value concatenated twice
rather than the distinct values. -/
theorem cdp_po_last_hostname_and_dup_ports :
    (processRowNX "sw1" c5Tables c5Row).map
        (fun r => (r.cdpNeighborHostname, r.cdpNeighborPort)) =
      some (some "B", some "Gi0/1, Gi0/1")
    ∧ (some "B" : Option String) ≠ some "A"
    ∧ (some "Gi0/1, Gi0/1" : Option String) ≠ some "Gi0/1" := by
  decide

/-- The two-member corollary applied to concrete neighbor values. -/
theorem cdp_po_two_member_resolution_instance :
    (processRowNX "sw" (twoMemberPoTables "A" "P1" "Gi0/1" "B" "P2" "Gi0/2")
        ⟨"Po1", "aa", "1"⟩).map
        (fun r => (r.cdpNeighborHostname, r.cdpNeighborPort)) =
      some (some "B", some ("Gi0/1" ++ ", " ++ "Gi0/2")) :=
  cdp_po_two_member_resolution "sw" "aa" "1" "A" "P1" "Gi0/1" "B" "P2" "Gi0/2"
    (by decide) (by decide) (by decide)

/-- The triple accumulation loop decomposes into its three independent
coordinates, folded over the members' first matching CDP rows. -/
theorem cdpFold_decompose (cdps : List CdpRow) :
    ∀ (members : List String) (a b c : String),
      members.foldl (cdpFoldStep cdps) (a, b, c) =
        (cdpHostFoldAcc a (cdpMatchedRows cdps members),
         cdpPlatFoldAcc b (cdpMatchedRows cdps members),
         cdpPortFoldAcc c (cdpMatchedRows cdps members)) := by
  intro members
  induction members with
  | nil => intro a b c; rfl
  | cons intf rest ih =>
    intro a b c
    rw [List.foldl_cons]
    by_cases hi : (intf == "") = true
    · have h1 : cdpFoldStep cdps (a, b, c) intf = (a, b, c) := by
        rw [cdpFoldStep, if_pos hi]
      have h2 : cdpMatchedRows cdps (intf :: rest) = cdpMatchedRows cdps rest := by
        unfold cdpMatchedRows
        rw [List.filterMap_cons, if_pos hi]
      rw [h1, h2]
      exact ih a b c
    · have hi2 : (intf == "") = false := by
        cases hh : (intf == "") with
        | false => rfl
        | true => exact absurd hh hi
      cases hf : (cdps.filter (fun r => r.LOCAL_INTERFACE == intf)).head? with
      | none =>
        have h1 : cdpFoldStep cdps (a, b, c) intf = (a, b, c) := by
          rw [cdpFoldStep, if_neg (by simp [hi2]), hf]
        have h2 : cdpMatchedRows cdps (intf :: rest) = cdpMatchedRows cdps rest := by
          unfold cdpMatchedRows
          rw [List.filterMap_cons, if_neg (by simp [hi2]), hf]
        rw [h1, h2]
        exact ih a b c
      | some r =>
        have h1 : cdpFoldStep cdps (a, b, c) intf =
            (if !(hasSub r.NEIGHBOR_NAME a) then r.NEIGHBOR_NAME else a,
             if !(hasSub r.PLATFORM b) then r.PLATFORM else b,
             if c != "" then c ++ ", " ++ r.NEIGHBOR_INTERFACE
             else r.NEIGHBOR_INTERFACE) := by
          rw [cdpFoldStep, if_neg (by simp [hi2]), hf]
        have h2 : cdpMatchedRows cdps (intf :: rest) =
            r :: cdpMatchedRows cdps rest := by
          unfold cdpMatchedRows
          rw [List.filterMap_cons, if_neg (by simp [hi2]), hf]
        rw [h1, h2]
        exact ih _ _ _

/-- Appending one more matched row to the hostname accumulation: the new
hostname wins exactly when it is not a substring of the value accumulated
so far — the LAST such hostname decides the field. -/
theorem cdpHostFoldAcc_append :
    ∀ (rows : List CdpRow) (acc : String) (r : CdpRow),
      cdpHostFoldAcc acc (rows ++ [r]) =
        (if hasSub r.NEIGHBOR_NAME (cdpHostFoldAcc acc rows) = false
         then r.NEIGHBOR_NAME else cdpHostFoldAcc acc rows) := by
  intro rows
  induction rows with
  | nil =>
    intro acc r
    by_cases h : hasSub r.NEIGHBOR_NAME acc = true
    · simp [cdpHostFoldAcc, h]
    · have h2 : hasSub r.NEIGHBOR_NAME acc = false := by
        cases hh : hasSub r.NEIGHBOR_NAME acc with
        | false => rfl
        | true => exact absurd hh h
      simp [cdpHostFoldAcc, h2]
  | cons x rest ih =>
    intro acc r
    show cdpHostFoldAcc _ (rest ++ [r]) = _
    rw [ih]
    rfl

/-- A string ending in a comma-separated suffix is nonempty. -/
theorem comma_append_ne_empty (a x : String) : a ++ ", " ++ x ≠ "" := by
  intro h
  have hd := congrArg String.data h
  simp [String.data_append] at hd

/-- The neighbor-interface accumulation from a nonempty accumulator is a
comma-separated join. -/
theorem cdpPortFoldAcc_acc_ne :
    ∀ (rows : List CdpRow) (acc : String), acc ≠ "" →
      cdpPortFoldAcc acc rows =
        pyJoin ", " (acc :: rows.map (fun r => r.NEIGHBOR_INTERFACE)) := by
  intro rows
  induction rows with
  | nil => intro acc h; rfl
  | cons r rest ih =>
    intro acc h
    have hb : (acc != "") = true := by
      cases hh : (acc != "") with
      | true => rfl
      | false =>
        have hbeq : (acc == "") = true := by
          revert hh
          cases hq : (acc == "") <;> simp [bne, hq]
        exact absurd (eq_of_beq hbeq) h
    show cdpPortFoldAcc
        (if (acc != "") = true then acc ++ ", " ++ r.NEIGHBOR_INTERFACE
         else r.NEIGHBOR_INTERFACE) rest = _
    rw [if_pos hb, ih _ (comma_append_ne_empty acc r.NEIGHBOR_INTERFACE)]
    rfl

/-- When every matched row's neighbor interface is nonempty, the
accumulated CdpNeighborPort is exactly the comma-separated concatenation
of those interfaces, in order and without deduplication. -/
theorem cdpPortFoldAcc_join (rows : List CdpRow)
    (hne : ∀ r ∈ rows, r.NEIGHBOR_INTERFACE ≠ "") :
    cdpPortFoldAcc "" rows =
      pyJoin ", " (rows.map (fun r => r.NEIGHBOR_INTERFACE)) := by
  cases rows with
  | nil => rfl
  | cons r rest =>
    show cdpPortFoldAcc
        (if (("" : String) != "") = true then _ else r.NEIGHBOR_INTERFACE) rest = _
    rw [if_neg (by decide)]
    exact cdpPortFoldAcc_acc_ne rest r.NEIGHBOR_INTERFACE
      (hne r (List.mem_cons_self r rest))

/-- Nothing already seen is emitted again by the deduplication pass. -/
theorem uniqAux_not_mem (x : String) :
    ∀ (l seen : List String), x ∈ seen → x ∉ uniqAux seen l := by
  intro l
  induction l with
  | nil =>
    intro seen hx
    simp [uniqAux]
  | cons y ys ih =>
    intro seen hx
    by_cases hy : seen.contains y = true
    · rw [uniqAux, if_pos hy]
      exact ih seen hx
    · rw [uniqAux, if_neg hy]
      intro hmem
      rcases List.mem_cons.mp hmem with heq | hmem2
      · subst heq
        exact hy (List.elem_iff.mpr hx)
      · exact ih (y :: seen) (List.mem_cons_of_mem y hx) hmem2

/-- The deduplication pass never emits a value twice. -/
theorem uniqAux_nodup : ∀ (l seen : List String), (uniqAux seen l).Nodup := by
  intro l
  induction l with
  | nil => intro seen; simp [uniqAux]
  | cons y ys ih =>
    intro seen
    by_cases hy : seen.contains y = true
    · rw [uniqAux, if_pos hy]
      exact ih seen
    · rw [uniqAux, if_neg hy]
      exact List.nodup_cons.mpr
        ⟨uniqAux_not_mem y ys (y :: seen) (List.mem_cons_self y seen), ih (y :: seen)⟩

/-- `pandas.Series.unique()`, as embedded, keeps distinct values only. -/
theorem uniqFirst_nodup (l : List String) : (uniqFirst l).Nodup :=
  uniqAux_nodup l []

/-- For an IOS-XE port-channel row with resolved members and a non-empty
CDP table, the emitted record's CDP hostname is the first matching row's
(in CDP-table order) and the port field joins the deduplicated neighbor
interfaces of all matching rows. -/
theorem processRowXE_cdp_po (h : String) (t : TablesXE) (row : MacRowXE)
    (hc : row.PORTS.contains "CPU" = false)
    (hp0 : (portOfListXE row.PORTS == "") = false)
    (hpo : pyStartsWith (portOfListXE row.PORTS) "Po" = true)
    (hm : (memberPoXE t (portOfListXE row.PORTS) != "") = true)
    (hcdp : t.cdp_neighbors.isEmpty = false) :
    ((processRowXE h t row).getD emptyRecord).cdpNeighborHostname =
      ((cdpDataXE t.cdp_neighbors
        (pySplitOn (memberPoXE t (portOfListXE row.PORTS)) ", ")).head?).map
        (fun r => r.NEIGHBOR_NAME) ∧
    ((processRowXE h t row).getD emptyRecord).cdpNeighborPort =
      ((cdpDataXE t.cdp_neighbors
        (pySplitOn (memberPoXE t (portOfListXE row.PORTS)) ", ")).head?).map
        (fun _ => pyJoin ", " (uniqFirst ((cdpDataXE t.cdp_neighbors
          (pySplitOn (memberPoXE t (portOfListXE row.PORTS)) ", ")).map
          (fun r => r.NEIGHBOR_INTERFACE)))) := by
  have hc2 : ¬ ("CPU" ∈ row.PORTS) := by simpa using hc
  have hne : ¬ (portOfListXE row.PORTS = "") := by simpa using hp0
  cases hd : (cdpDataXE t.cdp_neighbors
      (pySplitOn (memberPoXE t (portOfListXE row.PORTS)) ", ")).head? with
  | none => constructor <;> simp [processRowXE, hc2, hne, hpo, hm, hcdp, hd]
  | some r => constructor <;> simp [processRowXE, hc2, hne, hpo, hm, hcdp, hd]

/-- C5 (amended): for every MAC-table row on a port-channel with a
non-empty CDP table — in the NX-OS builder, the emitted PortRecord's CDP
hostname and port fields are the hostname and interface coordinates of
folding, in member order, each member's first matching CDP row: the
hostname accumulator is OVERWRITTEN whenever the new hostname is not a
substring of the accumulated value, so the LAST such hostname decides the
field (not the first), and the interface coordinate is the comma-separated
concatenation, in member order and WITHOUT deduplication, of each member's
first matching row's neighbor interface; in the IOS-XE builder, the
hostname is the first matching CDP row's in CDP-table order, and the port
field joins the DISTINCT neighbor interfaces of all matching rows, first
occurrences kept. -/
theorem cdp_po_resolution_characterization :
    (∀ (h : String) (t : TablesNX) (row : MacRow),
      hasSub "vPC" row.PORTS = false →
      pyStartsWith row.PORTS "Po" = true →
      t.cdp_neighbors.isEmpty = false →
      (((processRowNX h t row).getD emptyRecord).cdpNeighborHostname =
        some (cdpHostFoldAcc "" (cdpMatchedRows t.cdp_neighbors
          (pySplitOn (memberPoNX t row.PORTS) ", "))) ∧
       ((processRowNX h t row).getD emptyRecord).cdpNeighborPort =
        some (cdpPortFoldAcc "" (cdpMatchedRows t.cdp_neighbors
          (pySplitOn (memberPoNX t row.PORTS) ", "))))) ∧
    (∀ (rows : List CdpRow) (acc : String) (r : CdpRow),
      cdpHostFoldAcc acc (rows ++ [r]) =
        (if hasSub r.NEIGHBOR_NAME (cdpHostFoldAcc acc rows) = false
         then r.NEIGHBOR_NAME else cdpHostFoldAcc acc rows)) ∧
    (∀ rows : List CdpRow, (∀ r ∈ rows, r.NEIGHBOR_INTERFACE ≠ "") →
      cdpPortFoldAcc "" rows =
        pyJoin ", " (rows.map (fun r => r.NEIGHBOR_INTERFACE))) ∧
    (∀ (h : String) (t : TablesXE) (row : MacRowXE),
      row.PORTS.contains "CPU" = false →
      (portOfListXE row.PORTS == "") = false →
      pyStartsWith (portOfListXE row.PORTS) "Po" = true →
      (memberPoXE t (portOfListXE row.PORTS) != "") = true →
      t.cdp_neighbors.isEmpty = false →
      (((processRowXE h t row).getD emptyRecord).cdpNeighborHostname =
        ((cdpDataXE t.cdp_neighbors
          (pySplitOn (memberPoXE t (portOfListXE row.PORTS)) ", ")).head?).map
          (fun r => r.NEIGHBOR_NAME) ∧
       ((processRowXE h t row).getD emptyRecord).cdpNeighborPort =
        ((cdpDataXE t.cdp_neighbors
          (pySplitOn (memberPoXE t (portOfListXE row.PORTS)) ", ")).head?).map
          (fun _ => pyJoin ", " (uniqFirst ((cdpDataXE t.cdp_neighbors
            (pySplitOn (memberPoXE t (portOfListXE row.PORTS)) ", ")).map
            (fun r => r.NEIGHBOR_INTERFACE)))))) ∧
    (∀ l : List String, (uniqFirst l).Nodup) := by
  refine ⟨?_, ?_, ?_, ?_, ?_⟩
  · intro h t row hv hpo hcdp
    have hb := processRowNX_cdp_po h t row hv hpo hcdp
    have hd := cdpFold_decompose t.cdp_neighbors
      (pySplitOn (memberPoNX t row.PORTS) ", ") "" "" ""
    constructor
    · rw [hb.1, cdpPoResolve, hd]
    · rw [hb.2, cdpPoResolve, hd]
  · intro rows acc r
    exact cdpHostFoldAcc_append rows acc r
  · intro rows hne
    exact cdpPortFoldAcc_join rows hne
  · intro h t row hc hp0 hpo hm hcdp
    exact processRowXE_cdp_po h t row hc hp0 hpo hm hcdp
  · intro l
    exact uniqFirst_nodup l

/-- C5 witness: the characterization applied to the concrete two-member
port-channel tables of each dialect. -/
theorem cdp_po_resolution_characterization_instance :
    ((processRowNX "sw1" c5Tables c5Row).getD emptyRecord).cdpNeighborHostname =
      some (cdpHostFoldAcc "" (cdpMatchedRows c5Tables.cdp_neighbors
        (pySplitOn (memberPoNX c5Tables "Po1") ", "))) ∧
    ((processRowXE "sw2" c5TablesXE c5RowXE).getD emptyRecord).cdpNeighborPort =
      ((cdpDataXE c5TablesXE.cdp_neighbors
        (pySplitOn (memberPoXE c5TablesXE (portOfListXE c5RowXE.PORTS)) ", ")).head?).map
        (fun _ => pyJoin ", " (uniqFirst ((cdpDataXE c5TablesXE.cdp_neighbors
          (pySplitOn (memberPoXE c5TablesXE (portOfListXE c5RowXE.PORTS)) ", ")).map
          (fun r => r.NEIGHBOR_INTERFACE)))) :=
  ⟨(cdp_po_resolution_characterization.1 "sw1" c5Tables c5Row (by decide)
      (by decide) (by decide)).1,
   (cdp_po_resolution_characterization.2.2.2.1 "sw2" c5TablesXE c5RowXE
      (by decide) (by decide) (by decide) (by decide) (by decide)).2⟩
